import Mathlib

/-!
Shallow embedding of `src/yaml_resume_builder/template_renderer.py` (the template-filling
and section-building engine of the resume builder), together with theorems settling the
frozen claims about its specification.

Strings are modelled as `List Char`; Python values reaching the renderer are modelled by
the inductive type `Val` (str, int, bool, None, list, dict with string keys); fallible
Python code (KeyError / TypeError) is modelled with `Except PyErr`.
-/

set_option maxRecDepth 10000

/-- Python strings are modelled as lists of characters. -/
abbrev Str := List Char

/-- A Python value as it can occur in the parsed resume data. -/
inductive Val where
  | str (s : Str)
  | int (n : Int)
  | bool (b : Bool)
  | none
  | list (xs : List Val)
  | dict (entries : List (String × Val))

/-- A Python dict with string keys, in insertion order (Python dicts preserve it). -/
abbrev Dict := List (String × Val)

/-- Errors the renderer can raise: Python KeyError and TypeError. -/
inductive PyErr where
  | keyError (k : String)
  | typeError (msg : String)
deriving DecidableEq

/-- Result of fallible Python code. -/
abbrev Res (α : Type) := Except PyErr α

/-- A single-quote character, kept out of string literals. -/
def squote : Str := [Char.ofNat 39]

/-- First value bound to key `k` (Python dict lookup, insertion order irrelevant for
distinct keys). -/
def dictGet (d : List (String × Val)) (k : String) : Option Val :=
  match d with
  | [] => Option.none
  | (k₁, v) :: rest => if k₁ = k then some v else dictGet rest k

/-- `d[k]` on a Python dict: KeyError when the key is absent. -/
def getKey (d : List (String × Val)) (k : String) : Res Val :=
  match dictGet d k with
  | some v => .ok v
  | Option.none => .error (.keyError k)

/-- `v[k]` with a string key: dict lookup; Python raises TypeError when string-indexing
lists, ints or strings. -/
def getItem (v : Val) (k : String) : Res Val :=
  match v with
  | .dict d => getKey d k
  | _ => .error (.typeError "value is not subscriptable by string keys")

/-- `v.get(k, default)` on a dict. The non-dict branch is unreachable in this code:
every call site first performs a `v[k]` lookup that errors on non-dicts. -/
def pyGetD (v : Val) (k : String) (default : Val) : Val :=
  match v with
  | .dict d => (dictGet d k).getD default
  | _ => default

/-- Python truthiness of a value. -/
def truthy : Val → Bool
  | .str s => !s.isEmpty
  | .int n => n != 0
  | .bool b => b
  | .none => false
  | .list xs => !xs.isEmpty
  | .dict d => !d.isEmpty

/-- `k in d and d[k]` — key present with a truthy value. -/
def truthyKey (d : List (String × Val)) (k : String) : Bool :=
  match dictGet d k with
  | some v => truthy v
  | Option.none => false

/-- Iterating a Python value (`for x in v`): lists yield their items, strings yield
one-character strings, dicts yield their keys; other values raise TypeError. -/
def asList : Val → Res (List Val)
  | .list xs => .ok xs
  | .str s => .ok (s.map (fun c => .str [c]))
  | .dict d => .ok (d.map (fun p => .str p.1.toList))
  | _ => .error (.typeError "value is not iterable")

/-- Prefix test (same semantics as `List.isPrefixOf`, structured to case on the pattern
first so that it reduces definitionally against a symbolic tail). -/
def isPre (pat s : Str) : Bool :=
  match pat with
  | [] => true
  | a :: as =>
    match s with
    | [] => false
    | b :: bs => a == b && isPre as bs

/-- The left-to-right scan of `str.replace`: at a match the replacement is emitted and
the remaining `pat.length - 1` matched characters are skipped via the counter (keeping
the recursion structural). -/
def pyReplaceGo (pat repl : Str) : Str → Nat → Str
  | [], _ => []
  | _ :: rest, skip + 1 => pyReplaceGo pat repl rest skip
  | c :: rest, 0 =>
    if pat ≠ [] ∧ isPre pat (c :: rest) then
      repl ++ pyReplaceGo pat repl rest (pat.length - 1)
    else
      c :: pyReplaceGo pat repl rest 0

/-- Python `str.replace(pat, repl)` for a non-empty pattern: a single left-to-right scan
replacing non-overlapping occurrences. (The empty-pattern case of Python is never used
by the renderer; it is mapped to the identity here.) -/
def pyReplace (pat repl s : Str) : Str := pyReplaceGo pat repl s 0

/-- First index `i ≥ st` at which `pat` occurs in `s`, if any. -/
def strFindFrom (pat s : Str) (st : Nat) : Option Nat :=
  (List.range (s.length + 1)).find? (fun i => decide (st ≤ i) && isPre pat (s.drop i))

/-- Python `s.find(pat, start)` for a non-empty pattern: a (possibly negative) start is
clamped by slice semantics; returns the first match index or -1. -/
def pyFind (pat s : Str) (start : Int) : Int :=
  let st : Nat := (if start < 0 then (s.length : Int) + start else start).toNat
  match strFindFrom pat s st with
  | some i => (i : Int)
  | Option.none => -1

/-- The `latex_special_chars` table of `escape_latex`, in source (insertion) order:
backslash first, then ampersand, percent, dollar, hash, underscore, the two braces,
tilde, caret. -/
def latex_special_chars : List (Char × Str) :=
  [ ('\\', "\\textbackslash\x7b\x7d".toList),
    ('&', "\\&".toList),
    ('%', "\\%".toList),
    ('$', "\\$".toList),
    ('#', "\\#".toList),
    ('_', "\\_".toList),
    ('{', "\\\x7b".toList),
    ('}', "\\\x7d".toList),
    ('~', "\\textasciitilde\x7b\x7d".toList),
    ('^', "\\textasciicircum\x7b\x7d".toList) ]

/-- The string branch of `escape_latex`: the ten `str.replace` passes applied in table
order to an input that is already a string. -/
def escapeStr (s : Str) : Str :=
  latex_special_chars.foldl (fun t p => pyReplace [p.1] p.2 t) s

mutual

/-- Python `repr`, for the value shapes used in this development (strings are assumed
printable and free of quotes/backslashes, where Python repr would pick other quoting). -/
def pyRepr : Val → Str
  | .str s => squote ++ s ++ squote
  | .int n => (toString n).toList
  | .bool b => if b then "True".toList else "False".toList
  | .none => "None".toList
  | .list xs => "[".toList ++ pyReprList xs ++ "]".toList
  | .dict d => "\x7b".toList ++ pyReprDict d ++ "\x7d".toList

/-- repr of list elements, comma-separated. -/
def pyReprList : List Val → Str
  | [] => []
  | [v] => pyRepr v
  | v :: w :: rest => pyRepr v ++ ", ".toList ++ pyReprList (w :: rest)

/-- repr of dict entries, comma-separated `k: v` pairs with repr-quoted keys. -/
def pyReprDict : List (String × Val) → Str
  | [] => []
  | [(k, v)] => squote ++ k.toList ++ squote ++ ": ".toList ++ pyRepr v
  | (k, v) :: e :: rest =>
    squote ++ k.toList ++ squote ++ ": ".toList ++ pyRepr v ++ ", ".toList ++
      pyReprDict (e :: rest)

end

/-- Python `str(v)`: identity on strings, repr-like rendering otherwise (exact for int,
bool, None, and containers of such values). -/
def pyStr : Val → Str
  | .str s => s
  | v => pyRepr v

/-- `escape_latex` (template_renderer.py lines 13-43): a non-string argument is returned
as `str(text)` immediately — the substitution table is NOT applied to it; a string goes
through the ten replacement passes in table order. -/
def escape_latex : Val → Str
  | .str s => escapeStr s
  | v => pyStr v

/-- Is the value a Python str? -/
def isStr : Val → Bool
  | .str _ => true
  | _ => false

/-- `", ".join(items)`: Python joins string items with the separator and raises
TypeError at the first non-string item (checked left to right). -/
def joinStrs : List Val → Res Str
  | [] => .ok []
  | [.str s] => .ok s
  | [_] => .error (.typeError "sequence item: expected str instance")
  | .str s :: v :: rest => do
    let r ← joinStrs (v :: rest)
    .ok (s ++ ", ".toList ++ r)
  | _ :: _ :: _ => .error (.typeError "sequence item: expected str instance")

/-- `k in v and v[k]` for an entry value: the non-dict branch is unreachable at every
call site (a preceding `v[key]` lookup has already raised on non-dicts). -/
def inAndTruthy (v : Val) (k : String) : Bool :=
  match v with
  | .dict d => truthyKey d k
  | _ => false

/-- One `\resumeSubheading` block of `_build_education_section` (lines 199-211):
lookups in source order school, location, degree, dates, each escaped. -/
def build_education_entry (edu : Val) : Res Str := do
  let school ← getItem edu "school"
  let location ← getItem edu "location"
  let degree ← getItem edu "degree"
  let dates ← getItem edu "dates"
  .ok ("\\resumeSubheading\n".toList ++
    "  \x7b".toList ++ escape_latex school ++ "\x7d\x7b".toList ++
    escape_latex location ++ "\x7d\n".toList ++
    "  \x7b".toList ++ escape_latex degree ++ "\x7d\x7b".toList ++
    escape_latex dates ++ "\x7d\n".toList)

/-- The `for` loops of the section builders: per-entry fragments appended in order,
the first raising entry aborting the build. -/
def buildEntries (f : Val → Res Str) : List Val → Res Str
  | [] => .ok []
  | e :: rest => do
    let s ← f e
    let r ← buildEntries f rest
    .ok (s ++ r)

/-- `_build_education_section` (lines 189-212). -/
def build_education_section (data : Dict) : Res Str := do
  let v ← getKey data "education"
  let xs ← asList v
  buildEntries build_education_entry xs

/-- One entry of `_build_experience_section` (lines 225-243): role/dates header,
company/location sub-line, then bullets from `description` if the key is present,
else `bullets` if present, else the empty list. -/
def build_experience_entry (exp : Val) : Res Str := do
  let role ← getItem exp "role"
  let dates ← getItem exp "dates"
  let company ← getItem exp "company"
  let location ← getItem exp "location"
  let descs ← asList (pyGetD exp "description" (pyGetD exp "bullets" (.list [])))
  .ok ("\\resumeSubheading\n".toList ++
    "  \x7b".toList ++ escape_latex role ++ "\x7d\x7b".toList ++
    escape_latex dates ++ "\x7d\n".toList ++
    "  \x7b".toList ++ escape_latex company ++ "\x7d\x7b".toList ++
    escape_latex location ++ "\x7d\n".toList ++
    "  \\resumeItemListStart\n".toList ++
    (descs.foldl (fun acc d =>
      acc ++ "    \\resumeItem\x7b".toList ++ escape_latex d ++ "\x7d\n".toList) []) ++
    "  \\resumeItemListEnd\n".toList)

/-- `_build_experience_section` (lines 215-244). -/
def build_experience_section (data : Dict) : Res Str := do
  let v ← getKey data "experience"
  let xs ← asList v
  buildEntries build_experience_entry xs

/-- One entry of `_build_projects_section` (lines 257-282): bold name, then an emphasized
`technologies` if present and truthy, else an emphasized `link` if present and truthy;
then the date slot (empty when `date` is absent or falsy); then the bullet list with the
same `description`-over-`bullets` precedence as experience. -/
def build_project_entry (project : Val) : Res Str := do
  let nameV ← getItem project "name"
  let title0 := "\x7b\\textbf\x7b".toList ++ escape_latex nameV ++ "\x7d".toList
  let title1 :=
    if inAndTruthy project "technologies" then
      title0 ++ " $|$ \\emph\x7b".toList ++
        escape_latex (pyGetD project "technologies" .none) ++ "\x7d".toList
    else if inAndTruthy project "link" then
      title0 ++ " $|$ \\emph\x7b".toList ++
        escape_latex (pyGetD project "link" .none) ++ "\x7d".toList
    else title0
  let title2 :=
    if inAndTruthy project "date" then
      title1 ++ "\x7d\x7b".toList ++ escape_latex (pyGetD project "date" .none) ++
        "\x7d".toList
    else title1 ++ "\x7d\x7b\x7d".toList
  let descs ← asList (pyGetD project "description" (pyGetD project "bullets" (.list [])))
  .ok ("\\resumeProjectHeading\n".toList ++
    "  ".toList ++ title2 ++ "\n".toList ++
    "  \\resumeItemListStart\n".toList ++
    (descs.foldl (fun acc d =>
      acc ++ "    \\resumeItem\x7b".toList ++ escape_latex d ++ "\x7d\n".toList) []) ++
    "  \\resumeItemListEnd\n".toList)

/-- `_build_projects_section` (lines 247-283). -/
def build_projects_section (data : Dict) : Res Str := do
  let v ← getKey data "projects"
  let xs ← asList v
  buildEntries build_project_entry xs

/-- One line of `_build_skills_section` (lines 295-304): bold escaped category, a literal
colon, then the `list` items joined with a comma-space on the raw values and the joined
string escaped as one unit. -/
def build_skills_entry (skill : Val) : Res Str := do
  let cat ← getItem skill "category"
  let lst ← getItem skill "list"
  let items ← asList lst
  let joined ← joinStrs items
  .ok ("\\textbf\x7b".toList ++ escape_latex cat ++ "\x7d\x7b: ".toList ++
    escape_latex (.str joined) ++ "\x7d \\\\\n".toList)

/-- `_build_skills_section` (lines 286-305). -/
def build_skills_section (data : Dict) : Res Str := do
  let v ← getKey data "skills"
  let xs ← asList v
  buildEntries build_skills_entry xs

/-- `_format_achievement_item` (lines 308-323): a string renders verbatim (escaped);
a dict renders `title [" at " issuer] [" (" date ")"]` with `title` gated on key
presence and issuer/date gated on presence-and-truthiness, each piece stringified then
escaped; any other value renders as the empty string. -/
def format_achievement_item (achievement : Val) : Str :=
  match achievement with
  | .str s => "    \\resumeItem\x7b".toList ++ escapeStr s ++ "\x7d\n".toList
  | .dict d =>
    let t1 : Str :=
      if (dictGet d "title").isSome then
        escapeStr (pyStr ((dictGet d "title").getD .none))
      else []
    let t2 :=
      if truthyKey d "issuer" then
        t1 ++ " at ".toList ++ escapeStr (pyStr ((dictGet d "issuer").getD .none))
      else t1
    let t3 :=
      if truthyKey d "date" then
        t2 ++ " (".toList ++ escapeStr (pyStr ((dictGet d "date").getD .none)) ++
          ")".toList
      else t2
    "    \\resumeItem\x7b".toList ++ t3 ++ "\x7d\n".toList
  | _ => []

/-- Two backticks and two single quotes, the TeX-style double-quote pair of
`_format_publication_item`. -/
def backquote2 : Str := [Char.ofNat 96, Char.ofNat 96]

/-- Closing TeX-style quote pair. -/
def squote2 : Str := [Char.ofNat 39, Char.ofNat 39]

/-- `_format_publication_item` (lines 326-341). -/
def format_publication_item (publication : Val) : Str :=
  match publication with
  | .str s => "    \\resumeItem\x7b".toList ++ escapeStr s ++ "\x7d\n".toList
  | .dict d =>
    let t1 : Str :=
      if (dictGet d "title").isSome then
        backquote2 ++ escapeStr (pyStr ((dictGet d "title").getD .none)) ++ squote2
      else []
    let t2 :=
      if truthyKey d "journal" then
        t1 ++ " in ".toList ++ escapeStr (pyStr ((dictGet d "journal").getD .none))
      else t1
    let t3 :=
      if truthyKey d "date" then
        t2 ++ " (".toList ++ escapeStr (pyStr ((dictGet d "date").getD .none)) ++
          ")".toList
      else t2
    "    \\resumeItem\x7b".toList ++ t3 ++ "\x7d\n".toList
  | _ => []

/-- `_format_certification_item` (lines 344-346): the item is passed to `escape_latex`
whole — a dict is therefore stringified by the non-string branch, with no hyperlink. -/
def format_certification_item (certification : Val) : Str :=
  "    \\resumeItem\x7b".toList ++ escape_latex certification ++ "\x7d\n".toList

/-- The shared list wrapper opening of the compound section. -/
def listStartStr : Str := "\\resumeItemListStart\n".toList

/-- The shared list wrapper closing of the compound section. -/
def listEndStr : Str := "  \\resumeItemListEnd\n".toList

/-- One `if has_...: for ... in data[k]` loop of lines 371-383: the formatted items of
one source when it is present and truthy, the empty string otherwise. (When the guard
holds the key is present, so the `.getD` fallback is unreachable.) -/
def aps_source_items (fmt : Val → Str) (data : Dict) (k : String) : Res Str :=
  if truthyKey data k then do
    let xs ← asList ((dictGet data k).getD .none)
    .ok (xs.foldl (fun acc a => acc ++ fmt a) [])
  else .ok []

/-- `_build_achievements_publications_section` (lines 349-388): empty string when all
three of achievements/publications/certifications are absent or falsy, otherwise one
list environment containing the formatted items of the truthy sources in fixed order. -/
def build_achievements_publications_section (data : Dict) : Res Str :=
  if !truthyKey data "achievements" && !truthyKey data "publications" &&
      !truthyKey data "certifications" then
    .ok []
  else do
    let achPart ← aps_source_items format_achievement_item data "achievements"
    let pubPart ← aps_source_items format_publication_item data "publications"
    let certPart ← aps_source_items format_certification_item data "certifications"
    .ok (listStartStr ++ achPart ++ pubPart ++ certPart ++ listEndStr)

/-- The start boundary marker of the compound section (line 436). -/
def section_start : Str :=
  "%-----------Achievements / Publications / Certifications-----------".toList

/-- The end boundary marker of the compound section (line 437). -/
def section_end : Str := "%-------------------------------------------".toList

/-- Lines 440-445 of `render_template`: locate the boundary markers and excise the
region between them inclusive, plus one trailing character. `start_pos` is fed to the
second `find` even when it is `-1`; the guard checks both positions against `-1`, but
`end_pos` is `find(...) + len(section_end)` and hence never `-1`. -/
def excise (t : Str) : Str :=
  let start_pos : Int := pyFind section_start t 0
  let end_pos : Int := pyFind section_end t start_pos + (section_end.length : Int)
  if start_pos ≠ -1 ∧ end_pos ≠ -1 then
    t.take start_pos.toNat ++ t.drop (end_pos + 1).toNat
  else t

/-- `render_template` (lines 391-452), parametrised by the text of the bundled template
resource that the Python code reads from disk. `validate_data` only emits log warnings
and never raises on a dict input, so it does not affect the returned value and is not
modelled. The four repeated `data["contact"]` lookups of the source are pure and
identical; they are performed once here. -/
def render_template (template_content : Str) (data : Dict) : Res Str := do
  let nameV ← getKey data "name"
  let t1 := pyReplace "\x7b\x7bname\x7d\x7d".toList (escape_latex nameV) template_content
  let contact ← getKey data "contact"
  let phoneV ← getItem contact "phone"
  let t2 := pyReplace "\x7b\x7bphone\x7d\x7d".toList (escape_latex phoneV) t1
  let emailV ← getItem contact "email"
  let t3 := pyReplace "\x7b\x7bemail\x7d\x7d".toList (escape_latex emailV) t2
  let linkedinV ← getItem contact "linkedin"
  let t4 := pyReplace "\x7b\x7blinkedin\x7d\x7d".toList (escape_latex linkedinV) t3
  let githubV ← getItem contact "github"
  let t5 := pyReplace "\x7b\x7bgithub\x7d\x7d".toList (escape_latex githubV) t4
  let edu ← build_education_section data
  let t6 := pyReplace "\x7b\x7beducation\x7d\x7d".toList edu t5
  let exp ← build_experience_section data
  let t7 := pyReplace "\x7b\x7bexperience\x7d\x7d".toList exp t6
  let proj ← build_projects_section data
  let t8 := pyReplace "\x7b\x7bprojects\x7d\x7d".toList proj t7
  let skl ← build_skills_section data
  let t9 := pyReplace "\x7b\x7bskills\x7d\x7d".toList skl t8
  let aps ← build_achievements_publications_section data
  if aps.isEmpty then
    .ok (excise t9)
  else
    .ok (pyReplace "\x7b\x7bachievements_publications\x7d\x7d".toList aps t9)

/-- Modelled from the spec: the repository bundles a template resource
`resume.tex.template` that is not among the sources; section 6 describes it as a fixed
skeleton with the ten named placeholders and the two comment-style boundary markers
delimiting the compound optional section, each marker occurring once. -/
def TEMPLATE : Str :=
  ("\\documentclass\x7barticle\x7d\n" ++
   "\x7b\x7bname\x7d\x7d\n" ++
   "\x7b\x7bphone\x7d\x7d \x7b\x7bemail\x7d\x7d \x7b\x7blinkedin\x7d\x7d \x7b\x7bgithub\x7d\x7d\n" ++
   "\x7b\x7beducation\x7d\x7d\n" ++
   "\x7b\x7bexperience\x7d\x7d\n" ++
   "\x7b\x7bprojects\x7d\x7d\n" ++
   "\x7b\x7bskills\x7d\x7d\n" ++
   "%-----------Achievements / Publications / Certifications-----------\n" ++
   "\x7b\x7bachievements_publications\x7d\x7d\n" ++
   "%-------------------------------------------\n").toList

/-- Python `pat in s` (substring containment). -/
def containsSub (pat s : Str) : Bool := decide (pyFind pat s 0 ≠ -1)

/-- A single-character `str.replace` is the character-wise substitution. -/
theorem pyReplace_one (c : Char) (r : Str) (s : Str) :
    pyReplace [c] r s = s.flatMap (fun x => if x = c then r else [x]) := by
  induction s with
  | nil => rfl
  | cons x rest ih =>
    rw [pyReplace, pyReplaceGo]
    by_cases h : x = c
    · subst h
      simp [isPre, pyReplace] at ih ⊢
      exact ih
    · have hbeq : (c == x) = false := by
        simp [beq_iff_eq]
        exact fun hc => h hc.symm
      simp [isPre, hbeq, h, pyReplace] at ih ⊢
      exact ih

/-- Single-character replacement distributes over append. -/
theorem pyReplace_one_append (c : Char) (r : Str) (a b : Str) :
    pyReplace [c] r (a ++ b) = pyReplace [c] r a ++ pyReplace [c] r b := by
  simp [pyReplace_one, List.flatMap_append]

/-- The escaper distributes over append (every pass is a single-character replace). -/
theorem escapeStr_append (a b : Str) : escapeStr (a ++ b) = escapeStr a ++ escapeStr b := by
  simp only [escapeStr, latex_special_chars, List.foldl_cons, List.foldl_nil]
  simp only [pyReplace_one_append]

/-- The escaper on a cons. -/
theorem escapeStr_cons (x : Char) (s : Str) :
    escapeStr (x :: s) = escapeStr [x] ++ escapeStr s := by
  have : x :: s = [x] ++ s := rfl
  rw [this, escapeStr_append]

/-- The net effect of the ten replacement passes on one character of the original
input. Note the backslash entry: the braces inserted by the backslash substitution are
re-escaped by the later brace passes, yielding backslash-brace and backslash-close-brace
instead of the bare braces of the table entry. -/
def subChar (x : Char) : Str :=
  if x = '\\' then "\\textbackslash\\\x7b\\\x7d".toList
  else if x = '&' then "\\&".toList
  else if x = '%' then "\\%".toList
  else if x = '$' then "\\$".toList
  else if x = '#' then "\\#".toList
  else if x = '_' then "\\_".toList
  else if x = '{' then "\\\x7b".toList
  else if x = '}' then "\\\x7d".toList
  else if x = '~' then "\\textasciitilde\x7b\x7d".toList
  else if x = '^' then "\\textasciicircum\x7b\x7d".toList
  else [x]

/-- The character-to-sequence substitution exactly as the `latex_special_chars` table
designates it (the reading the claims give to a "single left-to-right pass"). -/
def tableSub (x : Char) : Str :=
  match latex_special_chars.find? (fun p => p.1 == x) with
  | some p => p.2
  | Option.none => [x]

/-- The escaper on a single character is the net substitution `subChar`. -/
theorem escapeStr_single (x : Char) : escapeStr [x] = subChar x := by
  by_cases h1 : x = '\\'
  · subst h1; decide
  · by_cases h2 : x = '&'
    · subst h2; decide
    · by_cases h3 : x = '%'
      · subst h3; decide
      · by_cases h4 : x = '$'
        · subst h4; decide
        · by_cases h5 : x = '#'
          · subst h5; decide
          · by_cases h6 : x = '_'
            · subst h6; decide
            · by_cases h7 : x = '{'
              · subst h7; decide
              · by_cases h8 : x = '}'
                · subst h8; decide
                · by_cases h9 : x = '~'
                  · subst h9; decide
                  · by_cases h10 : x = '^'
                    · subst h10; decide
                    · simp only [escapeStr, latex_special_chars, List.foldl_cons,
                        List.foldl_nil, pyReplace_one, List.flatMap_cons,
                        List.flatMap_nil, List.append_nil,
                        if_neg h1, if_neg h2, if_neg h3, if_neg h4, if_neg h5,
                        if_neg h6, if_neg h7, if_neg h8, if_neg h9, if_neg h10]
                      simp only [subChar, if_neg h1, if_neg h2, if_neg h3, if_neg h4,
                        if_neg h5, if_neg h6, if_neg h7, if_neg h8, if_neg h9,
                        if_neg h10]

/-- The whole escaper is the character-wise map of the net substitution: a true single
left-to-right pass, over the amended table `subChar`. -/
theorem escapeStr_flatMap (s : Str) : escapeStr s = s.flatMap subChar := by
  induction s with
  | nil => rfl
  | cons x rest ih =>
    rw [escapeStr_cons, escapeStr_single, List.flatMap_cons, ih]

/-- The ten table substitutions match the net substitution on every character except the
backslash. -/
theorem tableSub_eq_subChar (x : Char) (h : x ≠ '\\') : tableSub x = subChar x := by
  by_cases h2 : x = '&'
  · subst h2; decide
  · by_cases h3 : x = '%'
    · subst h3; decide
    · by_cases h4 : x = '$'
      · subst h4; decide
      · by_cases h5 : x = '#'
        · subst h5; decide
        · by_cases h6 : x = '_'
          · subst h6; decide
          · by_cases h7 : x = '{'
            · subst h7; decide
            · by_cases h8 : x = '}'
              · subst h8; decide
              · by_cases h9 : x = '~'
                · subst h9; decide
                · by_cases h10 : x = '^'
                  · subst h10; decide
                  · have hb : ∀ c : Char, x ≠ c → (c == x) = false := by
                      intro c hc
                      simp [beq_iff_eq]
                      exact fun he => hc he.symm
                    simp only [tableSub, latex_special_chars, List.find?,
                      hb _ h, hb _ h2, hb _ h3, hb _ h4, hb _ h5, hb _ h6, hb _ h7,
                      hb _ h8, hb _ h9, hb _ h10]
                    simp only [subChar, if_neg h, if_neg h2, if_neg h3, if_neg h4,
                      if_neg h5, if_neg h6, if_neg h7, if_neg h8, if_neg h9, if_neg h10]

/-- The ten reserved characters of the table. -/
def specials : List Char := latex_special_chars.map Prod.fst

/-- The ten substitute sequences of the table. -/
def tokens : List Str := latex_special_chars.map Prod.snd

/-- Scanner for "no raw syntax occurrences": the string must parse as a concatenation of
substitute sequences and non-reserved characters. A reserved character that does not
open a full substitute sequence is a raw occurrence and rejects. (No substitute sequence
is a prefix of another, so the first-match choice is the only possible one.) The counter
skips the remainder of a recognized sequence, keeping recursion structural. -/
def cleanTokensGo : Str → Nat → Bool
  | [], _ => true
  | c :: rest, skip =>
    match skip with
    | sk + 1 => cleanTokensGo rest sk
    | 0 =>
      match tokens.find? (fun t => isPre t (c :: rest)) with
      | some t => cleanTokensGo rest (t.length - 1)
      | Option.none => if specials.contains c then false else cleanTokensGo rest 0

/-- A string with zero raw occurrences of reserved characters used as syntax. -/
def cleanTokens (s : Str) : Bool := cleanTokensGo s 0

/-- Prepending the net substitution of a non-backslash character preserves clean
tokenization. -/
theorem cleanTokens_subChar (x : Char) (hx : x ≠ '\\') (r : Str) :
    cleanTokensGo (subChar x ++ r) 0 = cleanTokensGo r 0 := by
  by_cases h2 : x = '&'
  · subst h2; rfl
  · by_cases h3 : x = '%'
    · subst h3; rfl
    · by_cases h4 : x = '$'
      · subst h4; rfl
      · by_cases h5 : x = '#'
        · subst h5; rfl
        · by_cases h6 : x = '_'
          · subst h6; rfl
          · by_cases h7 : x = '{'
            · subst h7; rfl
            · by_cases h8 : x = '}'
              · subst h8; rfl
              · by_cases h9 : x = '~'
                · subst h9; rfl
                · by_cases h10 : x = '^'
                  · subst h10; rfl
                  · have hb : ∀ c : Char, x ≠ c → (c == x) = false := by
                      intro c hc
                      simp [beq_iff_eq]
                      exact fun he => hc he.symm
                    have hsub : subChar x = [x] := by
                      simp only [subChar, if_neg hx, if_neg h2, if_neg h3, if_neg h4,
                        if_neg h5, if_neg h6, if_neg h7, if_neg h8, if_neg h9,
                        if_neg h10]
                    have hbs : ('\\' == x) = false := hb _ hx
                    have hhead : ∀ ts : Str, isPre ('\\' :: ts) (x :: r) = false := by
                      intro ts
                      simp [isPre, hbs]
                    have hnone : tokens.find? (fun t => isPre t (x :: r)) = Option.none := by
                      rw [List.find?_eq_none]
                      intro t ht
                      simp only [tokens, latex_special_chars, List.map_cons,
                        List.map_nil, List.mem_cons, List.not_mem_nil, or_false] at ht
                      rcases ht with h | h | h | h | h | h | h | h | h | h <;> subst h
                      · rw [show ("\\textbackslash\x7b\x7d".toList : Str) =
                          '\\' :: "textbackslash\x7b\x7d".toList from rfl, hhead]
                        simp
                      · rw [show ("\\&".toList : Str) = '\\' :: "&".toList from rfl, hhead]
                        simp
                      · rw [show ("\\%".toList : Str) = '\\' :: "%".toList from rfl, hhead]
                        simp
                      · rw [show ("\\$".toList : Str) = '\\' :: "$".toList from rfl, hhead]
                        simp
                      · rw [show ("\\#".toList : Str) = '\\' :: "#".toList from rfl, hhead]
                        simp
                      · rw [show ("\\_".toList : Str) = '\\' :: "_".toList from rfl, hhead]
                        simp
                      · rw [show ("\\\x7b".toList : Str) = '\\' :: "\x7b".toList from rfl,
                          hhead]
                        simp
                      · rw [show ("\\\x7d".toList : Str) = '\\' :: "\x7d".toList from rfl,
                          hhead]
                        simp
                      · rw [show ("\\textasciitilde\x7b\x7d".toList : Str) =
                          '\\' :: "textasciitilde\x7b\x7d".toList from rfl, hhead]
                        simp
                      · rw [show ("\\textasciicircum\x7b\x7d".toList : Str) =
                          '\\' :: "textasciicircum\x7b\x7d".toList from rfl, hhead]
                        simp
                    have hc : ∀ c : Char, x ≠ c → (x == c) = false := by
                      intro c hc
                      simp [beq_iff_eq, hc]
                    rw [hsub]
                    show cleanTokensGo (x :: r) 0 = cleanTokensGo r 0
                    rw [cleanTokensGo]
                    simp only [hnone, specials, latex_special_chars, List.map_cons,
                      List.map_nil, List.contains_cons, List.elem_nil, List.elem_cons,
                      hc _ hx, hc _ h2, hc _ h3, hc _ h4, hc _ h5, hc _ h6,
                      hc _ h7, hc _ h8, hc _ h9, hc _ h10, Bool.or_self, Bool.or_false,
                      Bool.false_or, if_false, Bool.false_eq_true]

/-- Character-wise mapping of `subChar` over a backslash-free string tokenizes cleanly. -/
theorem cleanTokens_flatMap (s : Str) :
    '\\' ∉ s → cleanTokensGo (s.flatMap subChar) 0 = true := by
  induction s with
  | nil => intro _; rfl
  | cons x rest ih =>
    intro h
    have hx : x ≠ '\\' := fun he => h (he ▸ List.mem_cons_self x rest)
    rw [List.flatMap_cons, cleanTokens_subChar x hx]
    exact ih (fun hm => h (List.mem_cons_of_mem x hm))

/-- C3 (counterexample): escaping the one-character backslash string does not agree with
the character-to-sequence table of `latex_special_chars` applied as a single pass — the
braces inserted by the backslash substitution are re-escaped by the later brace passes,
so the output is backslash-textbackslash-backslash-brace-backslash-brace rather than the
table entry backslash-textbackslash-brace-brace. -/
theorem C3_counterexample :
    escapeStr ("\\".toList) = "\\textbackslash\\\x7b\\\x7d".toList ∧
    escapeStr ("\\".toList) ≠ ("\\".toList).flatMap tableSub := by
  exact ⟨by decide, by decide⟩

/-- C3 (amended): `escape_latex` on strings does equal one left-to-right character-wise
pass, but over the net table `subChar`, which agrees with the `latex_special_chars`
table on every character except the backslash; for the backslash the substitution's own
inserted braces are re-escaped by the later brace substitutions. -/
theorem C3_single_pass_amended :
    (∀ s : Str, escapeStr s = s.flatMap subChar) ∧
    (∀ x : Char, x ≠ '\\' → tableSub x = subChar x) ∧
    subChar '\\' = "\\textbackslash\\\x7b\\\x7d".toList :=
  ⟨escapeStr_flatMap, tableSub_eq_subChar, by decide⟩

/-- Witness for C3: the amended theorem applied at the ampersand and at a concrete
string. -/
theorem C3_witness :
    tableSub '&' = subChar '&' ∧
    escapeStr ("a&b".toList) = ("a&b".toList).flatMap subChar :=
  ⟨C3_single_pass_amended.2.1 '&' (by decide), C3_single_pass_amended.1 ("a&b".toList)⟩

/-- C8 (counterexample): the input consisting of one backslash contains a reserved
character, yet the escaped output does not tokenize into substitute sequences and
non-reserved characters — it contains a raw backslash occurrence (the backslash of
textbackslash is not followed by the braces of its designated sequence). -/
theorem C8_counterexample :
    '\\' ∈ ("\\".toList : Str) ∧ cleanTokens (escapeStr ("\\".toList)) = false := by
  exact ⟨by decide, by decide⟩

/-- C8 (amended): for every string containing no backslash, the escaped output contains
zero raw occurrences of the reserved characters used as syntax — it parses as a
concatenation of substitute escape sequences and non-reserved characters. (For inputs
containing a backslash the property fails; see the counterexample.) -/
theorem C8_escaping_totality_amended (s : Str) (h : '\\' ∉ s) :
    cleanTokens (escapeStr s) = true := by
  rw [escapeStr_flatMap]
  exact cleanTokens_flatMap s h

/-- Witness for C8: a concrete input containing ampersand, underscore, tilde, caret and
both braces, escaped and cleanly tokenized. -/
theorem C8_witness :
    '\\' ∉ ("a&b_c~d^e\x7bf\x7dg%h$i#j".toList : Str) ∧
    cleanTokens (escapeStr ("a&b_c~d^e\x7bf\x7dg%h$i#j".toList)) = true :=
  ⟨by decide, C8_escaping_totality_amended _ (by decide)⟩

/-- The certification map of the repository's own test
`test_render_template_with_certification_links`: a `name` plus a truthy `link`. -/
def cert_link_example : Val :=
  .dict [("name", .str "AWS Certified Developer - Associate (2023)".toList),
         ("link", .str "https://www.credly.com/badges/your-badge-id".toList)]

/-- C2 (code bug): a certification map with a truthy `link` is NOT rendered as a
hyperlink wrapping the escaped name: `_format_certification_item` passes the dict whole
to `escape_latex`, whose non-string branch stringifies it verbatim — the rendered line
is the Python repr of the dict (raw braces included) with no href and no underline,
contradicting the spec and the repository's tests, which demand an href-with-underline
rendering for exactly this input. -/
theorem C2_certification_link_bug :
    inAndTruthy cert_link_example "link" = true ∧
    format_certification_item cert_link_example =
      "    \\resumeItem\x7b".toList ++ pyStr cert_link_example ++ "\x7d\n".toList ∧
    containsSub "\\href".toList (format_certification_item cert_link_example) = false ∧
    containsSub "\\underline".toList (format_certification_item cert_link_example) = false := by
  exact ⟨by decide, rfl, by decide, by decide⟩

/-- C5 (counterexample): for a non-string value the result of `escape_latex` is NOT the
escaped stringification — the empty dict stringifies to a brace pair which the
substitution table would escape, but `escape_latex` returns it with raw braces. -/
theorem C5_counterexample :
    escape_latex (.dict []) = "\x7b\x7d".toList ∧
    escape_latex (.dict []) ≠ escapeStr (pyStr (.dict [])) := by
  exact ⟨by decide, by decide⟩

/-- C5 (amended): for every non-string value `escape_latex` returns the canonical string
representation with NO substitution pass applied to it; in particular 123 yields "123"
and None yields "None" without raising (these two happen to contain no reserved
characters, so for them the unescaped and escaped forms coincide). -/
theorem C5_nonstring_amended :
    (∀ v : Val, isStr v = false → escape_latex v = pyStr v) ∧
    escape_latex (.int 123) = "123".toList ∧
    escape_latex .none = "None".toList := by
  refine ⟨?_, by decide, by decide⟩
  intro v h
  cases v with
  | str s => simp [isStr] at h
  | int n => rfl
  | bool b => rfl
  | none => rfl
  | list xs => rfl
  | dict d => rfl

/-- Witness for C5: the amended theorem applied at the integer 123. -/
theorem C5_witness :
    isStr (.int 123) = false ∧ escape_latex (.int 123) = pyStr (.int 123) :=
  ⟨by decide, C5_nonstring_amended.1 (.int 123) (by decide)⟩

/-- C4 (counterexample): a template text that contains the start marker but not the end
marker is NOT left unmodified by the excision — `end_pos` is `find(...) + len(end)` and
hence `43`, not `-1`, when the end marker is missing, so the guard passes and the text
is wrongly spliced. -/
theorem C4_counterexample :
    pyFind section_end ("AB".toList ++ section_start ++ "CD".toList) 0 = -1 ∧
    excise ("AB".toList ++ section_start ++ "CD".toList) =
      "ABCertifications-----------CD".toList ∧
    excise ("AB".toList ++ section_start ++ "CD".toList) ≠
      ("AB".toList ++ section_start ++ "CD".toList) := by
  exact ⟨by decide, by decide, by decide⟩

/-- C4 (amended): the excision silently leaves the template text unmodified when the
START marker is not found; the corresponding guard for a missing end marker never
fires (see the counterexample), so no-op behavior holds only for the start marker. -/
theorem C4_excision_noop_amended (t : Str) (h : pyFind section_start t 0 = -1) :
    excise t = t := by
  simp only [excise, h]
  simp

/-- Witness for C4: a short text without the start marker is left unmodified. -/
theorem C4_witness :
    pyFind section_start ("hello".toList) 0 = -1 ∧
    excise ("hello".toList) = "hello".toList :=
  ⟨by decide, C4_excision_noop_amended _ (by decide)⟩

/-- `.ok` bind computes. -/
theorem ok_bind {α β : Type} (a : α) (f : α → Res β) :
    (Except.ok a : Res α) >>= f = f a := rfl

/-- `.error` bind propagates. -/
theorem error_bind {α β : Type} (e : PyErr) (f : α → Res β) :
    (Except.error e : Res α) >>= f = .error e := rfl

/-- Comma-space join of plain strings. -/
def commaJoin : List Str → Str
  | [] => []
  | [x] => x
  | x :: y :: rest => x ++ ", ".toList ++ commaJoin (y :: rest)

/-- `", ".join` on a list of strings succeeds with the comma-space join. -/
theorem joinStrs_map_str (xs : List Str) :
    joinStrs (xs.map .str) = .ok (commaJoin xs) := by
  induction xs with
  | nil => rfl
  | cons x rest ih =>
    cases rest with
    | nil => rfl
    | cons y ys =>
      simp only [List.map_cons] at ih ⊢
      rw [joinStrs, ih]
      rfl

/-- `joinStrs` on a guaranteed-nonempty tail, split by the head value. -/
theorem joinStrs_cons (v : Val) (l : List Val) (hl : l ≠ []) :
    joinStrs (v :: l) =
      match v with
      | .str s => do
        let r ← joinStrs l
        .ok (s ++ ", ".toList ++ r)
      | _ => .error (.typeError "sequence item: expected str instance") := by
  cases l with
  | nil => exact absurd rfl hl
  | cons w ws => cases v <;> rfl

/-- A comma-space inside one item is indistinguishable from the join separator. -/
theorem joinStrs_merge (pre : List Val) (a b : Str) (post : List Val) :
    joinStrs (pre ++ .str (a ++ ',' :: ' ' :: b) :: post) =
      joinStrs (pre ++ .str a :: .str b :: post) := by
  induction pre with
  | nil =>
    cases post with
    | nil => simp [joinStrs, ok_bind]
    | cons w ws =>
      rw [List.nil_append, List.nil_append,
        joinStrs_cons (.str (a ++ ',' :: ' ' :: b)) (w :: ws) (by simp),
        joinStrs_cons (.str a) (.str b :: w :: ws) (by simp),
        joinStrs_cons (.str b) (w :: ws) (by simp)]
      cases h : joinStrs (w :: ws) with
      | error e => rfl
      | ok r => simp [ok_bind, List.append_assoc]
  | cons p ps ih =>
    rw [List.cons_append, List.cons_append,
      joinStrs_cons p (ps ++ .str (a ++ ',' :: ' ' :: b) :: post) (by simp),
      joinStrs_cons p (ps ++ .str a :: .str b :: post) (by simp)]
    cases p <;> simp only [ih]

/-- C9 (confirmed): a skills entry renders as bold escaped category, a literal colon,
then the raw comma-space join of the `list` items escaped as one unit; consequently a
comma-space inside one item and the separator between two split items produce identical
output. -/
theorem C9_skills_join :
    (∀ (cat : Val) (xs : List Str),
      build_skills_entry (.dict [("category", cat), ("list", .list (xs.map .str))]) =
        .ok ("\\textbf\x7b".toList ++ escape_latex cat ++ "\x7d\x7b: ".toList ++
          escapeStr (commaJoin xs) ++ "\x7d \\\\\n".toList)) ∧
    (∀ (cat : Val) (pre : List Val) (a b : Str) (post : List Val),
      build_skills_entry (.dict [("category", cat),
        ("list", .list (pre ++ .str (a ++ ',' :: ' ' :: b) :: post))]) =
      build_skills_entry (.dict [("category", cat),
        ("list", .list (pre ++ .str a :: .str b :: post))])) := by
  constructor
  · intro cat xs
    simp [build_skills_entry, getItem, getKey, dictGet, asList, joinStrs_map_str, ok_bind,
      escape_latex]
  · intro cat pre a b post
    simp [build_skills_entry, getItem, getKey, dictGet, asList, ok_bind]
    rw [joinStrs_merge]

/-- C6 (confirmed): the bullet list of an experience or project entry comes from
`description` when that key is present, else from `bullets`, else it is empty (no
error): an entry carrying its bullets under `description` and the same entry carrying
them under `bullets` build byte-identical markup; `description` wins when both keys are
present; and an entry with neither key builds the same markup as one with an explicit
empty `description`. -/
theorem C6_description_bullets_equiv :
    (∀ (c r l d ds : Val),
      build_experience_entry (.dict [("company", c), ("role", r), ("location", l),
        ("dates", d), ("description", ds)]) =
      build_experience_entry (.dict [("company", c), ("role", r), ("location", l),
        ("dates", d), ("bullets", ds)])) ∧
    (∀ (n ds : Val),
      build_project_entry (.dict [("name", n), ("description", ds)]) =
      build_project_entry (.dict [("name", n), ("bullets", ds)])) ∧
    (∀ (c r l d ds bs : Val),
      build_experience_entry (.dict [("company", c), ("role", r), ("location", l),
        ("dates", d), ("description", ds), ("bullets", bs)]) =
      build_experience_entry (.dict [("company", c), ("role", r), ("location", l),
        ("dates", d), ("description", ds)])) ∧
    (∀ (n ds bs : Val),
      build_project_entry (.dict [("name", n), ("description", ds), ("bullets", bs)]) =
      build_project_entry (.dict [("name", n), ("description", ds)])) ∧
    (∀ (c r l d : Val),
      build_experience_entry (.dict [("company", c), ("role", r), ("location", l),
        ("dates", d)]) =
      build_experience_entry (.dict [("company", c), ("role", r), ("location", l),
        ("dates", d), ("description", .list [])])) ∧
    (∀ (n : Val),
      build_project_entry (.dict [("name", n)]) =
      build_project_entry (.dict [("name", n), ("description", .list [])])) := by
  refine ⟨?_, ?_, ?_, ?_, ?_, ?_⟩
  · intro c r l d ds
    simp [build_experience_entry, getItem, getKey, dictGet, pyGetD, ok_bind]
  · intro n ds
    simp [build_project_entry, getItem, getKey, dictGet, pyGetD, inAndTruthy, truthyKey,
      ok_bind]
  · intro c r l d ds bs
    simp [build_experience_entry, getItem, getKey, dictGet, pyGetD, ok_bind]
  · intro n ds bs
    simp [build_project_entry, getItem, getKey, dictGet, pyGetD, inAndTruthy, truthyKey,
      ok_bind]
  · intro c r l d
    simp [build_experience_entry, getItem, getKey, dictGet, pyGetD, asList, ok_bind]
  · intro n
    simp [build_project_entry, getItem, getKey, dictGet, pyGetD, inAndTruthy, truthyKey,
      asList, ok_bind]

/-- A well-formed input whose single skills entry has a numeric item in `list`. -/
def c10_data : Dict :=
  [("name", .str "Test User".toList),
   ("contact", .dict [("phone", .str "555".toList), ("email", .str "t@e.com".toList),
                      ("linkedin", .str "tu".toList), ("github", .str "tu".toList)]),
   ("education", .list []),
   ("experience", .list []),
   ("projects", .list []),
   ("skills", .list [.dict [("category", .str "Languages".toList),
                            ("list", .list [.str "Python".toList, .int 5])]])]

/-- C10 (confirmed): with every required field present, a skills entry whose `list`
contains the number 5 makes `render_template` raise a TypeError from the raw
comma-join, for every template text — the escaper's stringify-instead-of-reject policy
does not extend to skills list items. -/
theorem C10_skills_typeerror (template_content : Str) :
    render_template template_content c10_data =
      .error (.typeError "sequence item: expected str instance") := rfl

/-- Extract the string of a successful render (empty on error). -/
def okStr : Res Str → Str
  | .ok s => s
  | .error _ => []

/-- A three-step ok-bind chain ending in the wrapped list environment is either an error
or one list environment. -/
theorem aps_tail_shape (A P C : Res Str) :
    (∃ e, (do
      let a ← A
      let p ← P
      let c ← C
      Except.ok (listStartStr ++ a ++ p ++ c ++ listEndStr) : Res Str) = .error e) ∨
    (∃ mid, (do
      let a ← A
      let p ← P
      let c ← C
      Except.ok (listStartStr ++ a ++ p ++ c ++ listEndStr) : Res Str) =
        .ok (listStartStr ++ mid ++ listEndStr)) := by
  cases A with
  | error e => left; exact ⟨e, rfl⟩
  | ok a =>
    cases P with
    | error e => left; exact ⟨e, rfl⟩
    | ok p =>
      cases C with
      | error e => left; exact ⟨e, rfl⟩
      | ok c =>
        right
        exact ⟨a ++ p ++ c, by simp [ok_bind, List.append_assoc]⟩

/-- Full case analysis of the compound builder: all three sources falsy and the empty
string, or at least one truthy and (an error or one list environment). -/
theorem build_aps_cases (data : Dict) :
    (truthyKey data "achievements" = false ∧ truthyKey data "publications" = false ∧
      truthyKey data "certifications" = false ∧
      build_achievements_publications_section data = .ok []) ∨
    ((truthyKey data "achievements" = true ∨ truthyKey data "publications" = true ∨
      truthyKey data "certifications" = true) ∧
      ((∃ e, build_achievements_publications_section data = .error e) ∨
       (∃ mid, build_achievements_publications_section data =
         .ok (listStartStr ++ mid ++ listEndStr)))) := by
  cases hA : truthyKey data "achievements" with
  | false =>
    cases hP : truthyKey data "publications" with
    | false =>
      cases hC : truthyKey data "certifications" with
      | false =>
        left
        refine ⟨rfl, rfl, rfl, ?_⟩
        simp [build_achievements_publications_section, hA, hP, hC]
      | true =>
        right
        refine ⟨Or.inr (Or.inr rfl), ?_⟩
        unfold build_achievements_publications_section
        simp only [hA, hP, hC, Bool.not_false, Bool.not_true, Bool.and_false,
          Bool.false_and, Bool.and_true, Bool.true_and, if_false, Bool.false_eq_true,
          ite_false]
        exact aps_tail_shape _ _ _
    | true =>
      right
      refine ⟨Or.inr (Or.inl rfl), ?_⟩
      unfold build_achievements_publications_section
      simp only [hA, hP, Bool.not_false, Bool.not_true, Bool.and_false,
        Bool.false_and, Bool.and_true, Bool.true_and, if_false, Bool.false_eq_true,
        ite_false]
      exact aps_tail_shape _ _ _
  | true =>
    right
    refine ⟨Or.inl rfl, ?_⟩
    unfold build_achievements_publications_section
    simp only [hA, Bool.not_true, Bool.false_and, if_false, Bool.false_eq_true,
      ite_false]
    exact aps_tail_shape _ _ _

/-- `k in d` — key presence. -/
def hasKey (d : List (String × Val)) (k : String) : Bool := (dictGet d k).isSome

/-- An education entry the builder can process: a dict with its four required keys. -/
def eduEntryWF : Val → Bool
  | .dict e => hasKey e "school" && hasKey e "location" && hasKey e "degree" &&
      hasKey e "dates"
  | _ => false

/-- An experience entry the builder can process: a dict with its four required keys and
an iterable bullets source. -/
def expEntryWF : Val → Bool
  | .dict e => hasKey e "role" && hasKey e "dates" && hasKey e "company" &&
      hasKey e "location" &&
      (asList (pyGetD (.dict e) "description" (pyGetD (.dict e) "bullets" (.list [])))).isOk
  | _ => false

/-- A project entry the builder can process: a dict with `name` and an iterable bullets
source. -/
def projEntryWF : Val → Bool
  | .dict e => hasKey e "name" &&
      (asList (pyGetD (.dict e) "description" (pyGetD (.dict e) "bullets" (.list [])))).isOk
  | _ => false

/-- A skills entry the builder can process: a dict with `category` and a joinable
`list`. -/
def skillEntryWF : Val → Bool
  | .dict e => hasKey e "category" &&
      (match dictGet e "list" with
       | some v => (asList v >>= joinStrs).isOk
       | Option.none => false)
  | _ => false

/-- A list-valued section whose entries all satisfy the entry predicate. -/
def sectionWF (data : Dict) (k : String) (f : Val → Bool) : Bool :=
  match dictGet data k with
  | some (.list xs) => xs.all f
  | _ => false

/-- A compound-section source that cannot make the builder raise: absent, falsy, or
iterable. -/
def optSourceWF (data : Dict) (k : String) : Bool :=
  match dictGet data k with
  | some v => !truthy v || (asList v).isOk
  | Option.none => true

/-- The contact map with its four required subfields. -/
def contactWF (data : Dict) : Bool :=
  match dictGet data "contact" with
  | some (.dict cd) => hasKey cd "phone" && hasKey cd "email" && hasKey cd "linkedin" &&
      hasKey cd "github"
  | _ => false

/-- An input map the renderer processes without raising: name, full contact, the four
list-valued sections with processable entries, and raise-free compound sources (which
may be entirely absent). -/
def rootWF (data : Dict) : Bool :=
  hasKey data "name" && contactWF data &&
  sectionWF data "education" eduEntryWF &&
  sectionWF data "experience" expEntryWF &&
  sectionWF data "projects" projEntryWF &&
  sectionWF data "skills" skillEntryWF &&
  optSourceWF data "achievements" && optSourceWF data "publications" &&
  optSourceWF data "certifications"

/-- `isOk` means an `ok` value exists. -/
theorem isOk_iff {α : Type} (x : Res α) : x.isOk = true ↔ ∃ a, x = .ok a := by
  cases x <;> simp [Except.isOk, Except.toBool]

/-- A fold of ok-producing builders is ok. -/
theorem buildEntries_ok (f : Val → Res Str) (xs : List Val)
    (h : ∀ e ∈ xs, (f e).isOk = true) : (buildEntries f xs).isOk = true := by
  induction xs with
  | nil => rfl
  | cons e rest ih =>
    obtain ⟨s, hs⟩ := (isOk_iff _).mp (h e (List.mem_cons_self e rest))
    obtain ⟨r, hr⟩ := (isOk_iff _).mp (ih (fun e' h' => h e' (List.mem_cons_of_mem e h')))
    simp [buildEntries, hs, hr, ok_bind, Except.isOk, Except.toBool]

/-- A well-formed education entry builds without raising. -/
theorem build_education_entry_ok (e : Val) (h : eduEntryWF e = true) :
    (build_education_entry e).isOk = true := by
  cases e with
  | dict d =>
    simp only [eduEntryWF, Bool.and_eq_true, hasKey, Option.isSome_iff_exists] at h
    obtain ⟨⟨⟨⟨school, hs⟩, ⟨location, hl⟩⟩, ⟨degree, hd⟩⟩, ⟨dates, hda⟩⟩ := h
    simp [build_education_entry, getItem, getKey, hs, hl, hd, hda, ok_bind,
      Except.isOk, Except.toBool]
  | str s => simp [eduEntryWF] at h
  | int n => simp [eduEntryWF] at h
  | bool b => simp [eduEntryWF] at h
  | none => simp [eduEntryWF] at h
  | list xs => simp [eduEntryWF] at h

/-- A well-formed experience entry builds without raising. -/
theorem build_experience_entry_ok (e : Val) (h : expEntryWF e = true) :
    (build_experience_entry e).isOk = true := by
  cases e with
  | dict d =>
    simp only [expEntryWF, Bool.and_eq_true, hasKey, Option.isSome_iff_exists] at h
    obtain ⟨⟨⟨⟨⟨role, hr⟩, ⟨dates, hda⟩⟩, ⟨company, hc⟩⟩, ⟨location, hl⟩⟩, hds⟩ := h
    obtain ⟨ds, hdsv⟩ := (isOk_iff _).mp hds
    simp [build_experience_entry, getItem, getKey, hr, hda, hc, hl, hdsv, ok_bind,
      Except.isOk, Except.toBool]
  | str s => simp [expEntryWF] at h
  | int n => simp [expEntryWF] at h
  | bool b => simp [expEntryWF] at h
  | none => simp [expEntryWF] at h
  | list xs => simp [expEntryWF] at h

/-- A well-formed project entry builds without raising. -/
theorem build_project_entry_ok (e : Val) (h : projEntryWF e = true) :
    (build_project_entry e).isOk = true := by
  cases e with
  | dict d =>
    simp only [projEntryWF, Bool.and_eq_true, hasKey, Option.isSome_iff_exists] at h
    obtain ⟨⟨nm, hn⟩, hds⟩ := h
    obtain ⟨ds, hdsv⟩ := (isOk_iff _).mp hds
    simp [build_project_entry, getItem, getKey, hn, hdsv, ok_bind,
      Except.isOk, Except.toBool]
  | str s => simp [projEntryWF] at h
  | int n => simp [projEntryWF] at h
  | bool b => simp [projEntryWF] at h
  | none => simp [projEntryWF] at h
  | list xs => simp [projEntryWF] at h

/-- A well-formed skills entry builds without raising. -/
theorem build_skills_entry_ok (e : Val) (h : skillEntryWF e = true) :
    (build_skills_entry e).isOk = true := by
  cases e with
  | dict d =>
    simp only [skillEntryWF, Bool.and_eq_true, hasKey, Option.isSome_iff_exists] at h
    obtain ⟨⟨cat, hc⟩, hrest⟩ := h
    cases hget : dictGet d "list" with
    | none => rw [hget] at hrest; cases hrest
    | some v =>
      rw [hget] at hrest
      simp only [] at hrest
      cases ha : asList v with
      | error er => rw [ha] at hrest; simp [error_bind, Except.isOk, Except.toBool] at hrest
      | ok items =>
        rw [ha, ok_bind] at hrest
        cases hj : joinStrs items with
        | error er => rw [hj] at hrest; simp [ok_bind, Except.isOk, Except.toBool] at hrest
        | ok joined =>
          simp [build_skills_entry, getItem, getKey, hc, hget, ha, hj, ok_bind,
            Except.isOk, Except.toBool]
  | str s => simp [skillEntryWF] at h
  | int n => simp [skillEntryWF] at h
  | bool b => simp [skillEntryWF] at h
  | none => simp [skillEntryWF] at h
  | list xs => simp [skillEntryWF] at h

/-- A section whose entries are all processable builds without raising. -/
theorem build_section_ok (data : Dict) (k : String) (f : Val → Res Str) (p : Val → Bool)
    (hfp : ∀ e, p e = true → (f e).isOk = true) (h : sectionWF data k p = true) :
    (do
      let v ← getKey data k
      let xs ← asList v
      buildEntries f xs : Res Str).isOk = true := by
  unfold sectionWF at h
  cases hget : dictGet data k with
  | none => rw [hget] at h; cases h
  | some v =>
    rw [hget] at h
    cases v with
    | list xs =>
      simp only [] at h
      have hb := buildEntries_ok f xs (fun e he => hfp e (List.all_eq_true.mp h e he))
      simp [getKey, hget, asList, ok_bind, hb]
    | str s => simp only [] at h; cases h
    | int n => simp only [] at h; cases h
    | bool b => simp only [] at h; cases h
    | none => simp only [] at h; cases h
    | dict d2 => simp only [] at h; cases h

/-- The education section of a well-formed input builds without raising. -/
theorem build_education_section_ok (data : Dict)
    (h : sectionWF data "education" eduEntryWF = true) :
    (build_education_section data).isOk = true :=
  build_section_ok data "education" build_education_entry eduEntryWF
    build_education_entry_ok h

/-- The experience section of a well-formed input builds without raising. -/
theorem build_experience_section_ok (data : Dict)
    (h : sectionWF data "experience" expEntryWF = true) :
    (build_experience_section data).isOk = true :=
  build_section_ok data "experience" build_experience_entry expEntryWF
    build_experience_entry_ok h

/-- The projects section of a well-formed input builds without raising. -/
theorem build_projects_section_ok (data : Dict)
    (h : sectionWF data "projects" projEntryWF = true) :
    (build_projects_section data).isOk = true :=
  build_section_ok data "projects" build_project_entry projEntryWF
    build_project_entry_ok h

/-- The skills section of a well-formed input builds without raising. -/
theorem build_skills_section_ok (data : Dict)
    (h : sectionWF data "skills" skillEntryWF = true) :
    (build_skills_section data).isOk = true :=
  build_section_ok data "skills" build_skills_entry skillEntryWF
    build_skills_entry_ok h

/-- A raise-free compound source contributes its items without raising. -/
theorem aps_source_ok (fmt : Val → Str) (data : Dict) (k : String)
    (h : optSourceWF data k = true) : (aps_source_items fmt data k).isOk = true := by
  unfold aps_source_items
  cases htr : truthyKey data k with
  | false => simp [htr, Except.isOk, Except.toBool]
  | true =>
    unfold truthyKey at htr
    unfold optSourceWF at h
    cases hget : dictGet data k with
    | none => rw [hget] at htr; cases htr
    | some v =>
      rw [hget] at htr h
      simp only [] at htr h
      rw [htr] at h
      simp only [Bool.not_true, Bool.false_or] at h
      obtain ⟨xs, hxs⟩ := (isOk_iff _).mp h
      simp [htr, truthyKey, hget, hxs, ok_bind, Except.isOk, Except.toBool]

/-- The compound section of a well-formed input builds without raising. -/
theorem build_aps_ok (data : Dict) (hA : optSourceWF data "achievements" = true)
    (hP : optSourceWF data "publications" = true)
    (hC : optSourceWF data "certifications" = true) :
    (build_achievements_publications_section data).isOk = true := by
  unfold build_achievements_publications_section
  cases hcond : (!truthyKey data "achievements" && !truthyKey data "publications" &&
      !truthyKey data "certifications") with
  | true => simp [hcond, Except.isOk, Except.toBool]
  | false =>
    obtain ⟨a, ha⟩ := (isOk_iff _).mp (aps_source_ok format_achievement_item data _ hA)
    obtain ⟨p, hp⟩ := (isOk_iff _).mp (aps_source_ok format_publication_item data _ hP)
    obtain ⟨c, hc⟩ := (isOk_iff _).mp (aps_source_ok format_certification_item data _ hC)
    simp [hcond, ha, hp, hc, ok_bind, Except.isOk, Except.toBool]

/-- A well-formed input renders without raising, for every template text. -/
theorem render_template_ok (tmpl : Str) (data : Dict) (h : rootWF data = true) :
    (render_template tmpl data).isOk = true := by
  simp only [rootWF, Bool.and_eq_true] at h
  obtain ⟨⟨⟨⟨⟨⟨⟨⟨hn, hc⟩, he⟩, hx⟩, hpj⟩, hsk⟩, hach⟩, hpub⟩, hcert⟩ := h
  simp only [hasKey, Option.isSome_iff_exists] at hn
  obtain ⟨nameV, hnv⟩ := hn
  unfold contactWF at hc
  cases hcget : dictGet data "contact" with
  | none => rw [hcget] at hc; cases hc
  | some cv =>
    rw [hcget] at hc
    cases cv with
    | dict cd =>
      simp only [Bool.and_eq_true, hasKey, Option.isSome_iff_exists] at hc
      obtain ⟨⟨⟨⟨ph, hph⟩, ⟨em, hem⟩⟩, ⟨li, hli⟩⟩, ⟨gh, hgh⟩⟩ := hc
      obtain ⟨eduS, heduS⟩ := (isOk_iff _).mp (build_education_section_ok data he)
      obtain ⟨expS, hexpS⟩ := (isOk_iff _).mp (build_experience_section_ok data hx)
      obtain ⟨projS, hprojS⟩ := (isOk_iff _).mp (build_projects_section_ok data hpj)
      obtain ⟨sklS, hsklS⟩ := (isOk_iff _).mp (build_skills_section_ok data hsk)
      obtain ⟨apsS, hapsS⟩ :=
        (isOk_iff _).mp (build_aps_ok data hach hpub hcert)
      simp only [render_template, getKey, hnv, hcget, getItem, hph, hem, hli, hgh,
        heduS, hexpS, hprojS, hsklS, hapsS, ok_bind]
      cases apsS.isEmpty <;> simp [Except.isOk, Except.toBool]
    | str s => simp only [] at hc; cases hc
    | int n => simp only [] at hc; cases hc
    | bool b => simp only [] at hc; cases hc
    | none => simp only [] at hc; cases hc
    | list xs => simp only [] at hc; cases hc

/-- A missing `name` raises its KeyError first, for every template text. -/
theorem render_missing_name (tmpl : Str) (data : Dict)
    (h : hasKey data "name" = false) :
    render_template tmpl data = .error (.keyError "name") := by
  cases hd : dictGet data "name" with
  | none => simp [render_template, getKey, hd, error_bind]
  | some v => simp [hasKey, hd] at h

/-- A missing `contact` raises its KeyError once `name` resolves. -/
theorem render_missing_contact (tmpl : Str) (data : Dict)
    (hn : hasKey data "name" = true) (h : hasKey data "contact" = false) :
    render_template tmpl data = .error (.keyError "contact") := by
  simp only [hasKey, Option.isSome_iff_exists] at hn
  obtain ⟨nameV, hnv⟩ := hn
  cases hd : dictGet data "contact" with
  | none => simp [render_template, getKey, hnv, hd, ok_bind, error_bind]
  | some v => simp [hasKey, hd] at h

/-- A contact dict missing one of its four subfields raises a KeyError. -/
theorem render_missing_contact_field (tmpl : Str) (data : Dict)
    (cd : List (String × Val)) (hn : hasKey data "name" = true)
    (hc : dictGet data "contact" = some (.dict cd))
    (h : hasKey cd "phone" = false ∨ hasKey cd "email" = false ∨
      hasKey cd "linkedin" = false ∨ hasKey cd "github" = false) :
    ∃ k, render_template tmpl data = .error (.keyError k) := by
  simp only [hasKey, Option.isSome_iff_exists] at hn
  obtain ⟨nameV, hnv⟩ := hn
  cases hph : dictGet cd "phone" with
  | none =>
    exact ⟨"phone", by simp [render_template, getKey, getItem, hnv, hc, hph, ok_bind,
      error_bind]⟩
  | some ph =>
    cases hem : dictGet cd "email" with
    | none =>
      exact ⟨"email", by simp [render_template, getKey, getItem, hnv, hc, hph, hem,
        ok_bind, error_bind]⟩
    | some em =>
      cases hli : dictGet cd "linkedin" with
      | none =>
        exact ⟨"linkedin", by simp [render_template, getKey, getItem, hnv, hc, hph,
          hem, hli, ok_bind, error_bind]⟩
      | some li =>
        cases hgh : dictGet cd "github" with
        | none =>
          exact ⟨"github", by simp [render_template, getKey, getItem, hnv, hc, hph,
            hem, hli, hgh, ok_bind, error_bind]⟩
        | some gh =>
          rcases h with hk | hk | hk | hk <;>
            simp [hasKey, hph, hem, hli, hgh, Option.isSome] at hk

/-- An input with `name` and all four contact subfields but no `education` key. -/
def c1_data : Dict :=
  [("name", .str "A".toList),
   ("contact", .dict [("phone", .str "p".toList), ("email", .str "e".toList),
                      ("linkedin", .str "l".toList), ("github", .str "g".toList)])]

/-- C1 (counterexample): an input containing `name` and all four contact subfields, with
`education`, `experience`, `projects` and `skills` entirely absent, does NOT render — it
raises the KeyError for `education`, because the four section builders subscript their
root keys unconditionally. -/
theorem C1_counterexample :
    hasKey c1_data "name" = true ∧ contactWF c1_data = true ∧
    hasKey c1_data "education" = false ∧
    render_template "any template text".toList c1_data =
      .error (.keyError "education") :=
  ⟨by decide, by decide, by decide, rfl⟩

/-- C1 (amended): `render_template` returns a string without raising for every input
containing `name`, the four contact subfields, AND the four keys `education`,
`experience`, `projects`, `skills` as lists of processable entries — with
`achievements`, `publications` and `certifications` allowed to be entirely absent; and
it raises a lookup failure whenever `name`, `contact`, or any of the four contact
subfields is absent. -/
theorem C1_required_fields_amended :
    (∀ (tmpl : Str) (data : Dict), rootWF data = true →
      (render_template tmpl data).isOk = true) ∧
    (∀ (tmpl : Str) (data : Dict), hasKey data "name" = false →
      render_template tmpl data = .error (.keyError "name")) ∧
    (∀ (tmpl : Str) (data : Dict), hasKey data "name" = true →
      hasKey data "contact" = false →
      render_template tmpl data = .error (.keyError "contact")) ∧
    (∀ (tmpl : Str) (data : Dict) (cd : List (String × Val)),
      hasKey data "name" = true → dictGet data "contact" = some (.dict cd) →
      (hasKey cd "phone" = false ∨ hasKey cd "email" = false ∨
        hasKey cd "linkedin" = false ∨ hasKey cd "github" = false) →
      ∃ k, render_template tmpl data = .error (.keyError k)) :=
  ⟨render_template_ok, render_missing_name, render_missing_contact,
    render_missing_contact_field⟩

/-- A fully-populated well-formed input for the C1 witness (compound sources absent). -/
def c1_ok_data : Dict :=
  [("name", .str "Jane Doe".toList),
   ("contact", .dict [("phone", .str "555-0100".toList), ("email", .str "j@x.com".toList),
                      ("linkedin", .str "jane".toList), ("github", .str "jane".toList)]),
   ("education", .list [.dict [("school", .str "X U".toList),
                               ("location", .str "Y".toList),
                               ("degree", .str "BS".toList),
                               ("dates", .str "2019-2023".toList)]]),
   ("experience", .list []),
   ("projects", .list []),
   ("skills", .list [.dict [("category", .str "Lang".toList),
                            ("list", .list [.str "Py".toList])]])]

/-- Witness for C1: the amended theorem applied at a concrete well-formed input with
the three compound keys absent, and at a concrete input missing `name`. -/
theorem C1_witness :
    rootWF c1_ok_data = true ∧
    (render_template TEMPLATE c1_ok_data).isOk = true ∧
    hasKey c1_ok_data "achievements" = false ∧
    render_template TEMPLATE [] = .error (.keyError "name") :=
  ⟨by decide, C1_required_fields_amended.1 TEMPLATE c1_ok_data (by decide), by decide,
    C1_required_fields_amended.2.1 TEMPLATE [] (by decide)⟩

/-- A string containing none of the ten reserved characters of the table. -/
def plainStr (s : Str) : Bool :=
  s.all (fun c => !('\\' == c) && !('&' == c) && !('%' == c) && !('$' == c) &&
    !('#' == c) && !('_' == c) && !('{' == c) && !('}' == c) && !('~' == c) &&
    !('^' == c))

/-- Character-level facts of a plain string. -/
theorem plainStr_spec (s : Str) (h : plainStr s = true) :
    ∀ c ∈ s, ('\\' == c) = false ∧ ('%' == c) = false ∧ ('{' == c) = false := by
  intro c hc
  have h2 := List.all_eq_true.mp h c hc
  simp only [Bool.and_eq_true, Bool.not_eq_true'] at h2
  exact ⟨h2.1.1.1.1.1.1.1.1.1, h2.1.1.1.1.1.1.1.2, h2.1.1.1.2⟩

/-- The escaper is the identity on plain strings. -/
theorem plain_escape (s : Str) (h : plainStr s = true) : escapeStr s = s := by
  rw [escapeStr_flatMap]
  induction s with
  | nil => rfl
  | cons c rest ih =>
    have h2 := List.all_eq_true.mp h c (List.mem_cons_self c rest)
    simp only [Bool.and_eq_true, Bool.not_eq_true'] at h2
    obtain ⟨⟨⟨⟨⟨⟨⟨⟨⟨hb, ha⟩, hp⟩, hd⟩, hh⟩, hu⟩, hob⟩, hcb⟩, ht⟩, hca⟩ := h2
    have hs : subChar c = [c] := by
      have ne : ∀ x : Char, (x == c) = false → c ≠ x := by
        intro x hx he
        rw [he] at hx
        simp at hx
      simp only [subChar, if_neg (ne _ hb), if_neg (ne _ ha), if_neg (ne _ hp),
        if_neg (ne _ hd), if_neg (ne _ hh), if_neg (ne _ hu), if_neg (ne _ hob),
        if_neg (ne _ hcb), if_neg (ne _ ht), if_neg (ne _ hca)]
    rw [List.flatMap_cons, hs,
      ih (by
        rw [plainStr] at h ⊢
        rw [List.all_cons, Bool.and_eq_true] at h
        exact h.2)]
    rfl

/-- A pattern matches nowhere in a string whose characters all differ from the
pattern's first character. -/
theorem isPre_false_everywhere (p : Char) (ps s : Str)
    (hs : ∀ c ∈ s, (p == c) = false) :
    ∀ i, isPre (p :: ps) (s.drop i) = false := by
  intro i
  cases hd : s.drop i with
  | nil => rfl
  | cons c rest =>
    have hc : c ∈ s := List.mem_of_mem_drop (hd ▸ List.mem_cons_self c rest)
    simp [isPre, hs c hc]

/-- The scan of `str.replace` copies verbatim through a region whose characters cannot
begin a match. -/
theorem replace_skip (pat repl n B : Str)
    (h : ∀ c ∈ n, ∀ t : Str, isPre pat (c :: t) = false) :
    pyReplaceGo pat repl (n ++ B) 0 = n ++ pyReplaceGo pat repl B 0 := by
  induction n with
  | nil => rfl
  | cons c n' ih =>
    rw [List.cons_append]
    have hfail := h c (List.mem_cons_self c n') (n' ++ B)
    simp [pyReplaceGo, hfail,
      ih (fun c' hc' t => h c' (List.mem_cons_of_mem c hc') t)]

/-- A pattern matches at the front of itself followed by anything. -/
theorem isPre_self_append (pat X : Str) : isPre pat (pat ++ X) = true := by
  induction pat with
  | nil => rfl
  | cons a as ih => simp [isPre, ih]

/-- `strFindFrom` finds the first matching position at or after the start. -/
theorem strFindFrom_eq_some (pat s : Str) (st k : Nat) (hk : k ≤ s.length)
    (hst : st ≤ k) (hmatch : isPre pat (s.drop k) = true)
    (hbefore : ∀ j, st ≤ j → j < k → isPre pat (s.drop j) = false) :
    strFindFrom pat s st = some k := by
  unfold strFindFrom
  have hsplit : s.length + 1 = k + (s.length - k + 1) := by omega
  rw [hsplit, List.range_add, List.find?_append]
  have h1 : List.find? (fun i => decide (st ≤ i) && isPre pat (s.drop i))
      (List.range k) = Option.none := by
    apply List.find?_eq_none.mpr
    intro j hj
    have hjk := List.mem_range.mp hj
    by_cases hstj : st ≤ j
    · simp [hstj, hbefore j hstj hjk]
    · simp [hstj]
  have h2 : List.find? (fun i => decide (st ≤ i) && isPre pat (s.drop i))
      (List.map (fun x => k + x) (List.range (s.length - k + 1))) = some k := by
    rw [List.range_succ_eq_map, List.map_cons]
    simp only [Nat.add_zero]
    exact List.find?_cons_of_pos _ (by simp [hst, hmatch])
  rw [h1, h2]
  rfl

/-- `pyFind` with a natural start returns the first matching position. -/
theorem pyFind_eq (pat s : Str) (st k : Nat) (hk : k ≤ s.length)
    (hst : st ≤ k) (hmatch : isPre pat (s.drop k) = true)
    (hbefore : ∀ j, st ≤ j → j < k → isPre pat (s.drop j) = false) :
    pyFind pat s (st : Int) = (k : Int) := by
  unfold pyFind
  have hnn : ¬((st : Int) < 0) := by omega
  simp only [if_neg hnn, Int.toNat_natCast]
  rw [strFindFrom_eq_some pat s st k hk hst hmatch hbefore]

/-- `containsSub` is false when no position matches. -/
theorem containsSub_eq_false (pat s : Str)
    (h : ∀ i, i ≤ s.length → isPre pat (s.drop i) = false) :
    containsSub pat s = false := by
  have hnone : strFindFrom pat s 0 = Option.none := by
    unfold strFindFrom
    apply List.find?_eq_none.mpr
    intro j hj
    have hjr := List.mem_range.mp hj
    simp [h j (by omega)]
  unfold containsSub pyFind
  simp [hnone]

/-- The template text between the start marker and the end marker. -/
def midChunk : Str := "\n\x7b\x7bachievements_publications\x7d\x7d\n".toList

/-- The template text before the `name` placeholder. -/
def headChunk : Str := "\\documentclass\x7barticle\x7d\n".toList

/-- The template text left by the four emptied section placeholders. -/
def fiveNL : Str := "\n\n\n\n\n".toList

/-- The document produced for a plain-field, empty-section input: the template with the
five field strings substituted and the compound region excised. -/
def docP (nS pS eS lS gS : Str) : Str :=
  headChunk ++ (nS ++ ("\n".toList ++ (pS ++ (" ".toList ++ (eS ++ (" ".toList ++
    (lS ++ (" ".toList ++ (gS ++ fiveNL)))))))))

/-- An input with the five scalar fields and the four sections as empty lists, the
three compound keys entirely absent. -/
def mkPlainData (nS pS eS lS gS : Str) : Dict :=
  [("name", .str nS),
   ("contact", .dict [("phone", .str pS), ("email", .str eS), ("linkedin", .str lS),
                      ("github", .str gS)]),
   ("education", .list []), ("experience", .list []), ("projects", .list []),
   ("skills", .list [])]

/-- Excision of the compound region behind a percent-free prefix removes exactly the
region from the start marker through the end marker and its trailing newline. -/
theorem excise_decomp (P : Str) (hP : ∀ c ∈ P, ('%' == c) = false) :
    excise (P ++ (section_start ++ (midChunk ++ (section_end ++ "\n".toList)))) = P := by
  have hq98 : (section_start ++ midChunk).length = 98 := by decide
  have hqlen : (section_start ++ (midChunk ++ (section_end ++ "\n".toList))).length = 143 := by
    decide
  have hlen : (P ++ (section_start ++ (midChunk ++ (section_end ++ "\n".toList)))).length =
      P.length + 143 := by
    rw [List.length_append, hqlen]
  have hfind1 : pyFind section_start
      (P ++ (section_start ++ (midChunk ++ (section_end ++ "\n".toList)))) 0 =
      (P.length : Int) := by
    have := pyFind_eq section_start
      (P ++ (section_start ++ (midChunk ++ (section_end ++ "\n".toList)))) 0 P.length
      (by omega) (Nat.zero_le _)
      (by rw [List.drop_left]
          exact isPre_self_append _ _)
      (by intro j _ hj
          rw [List.drop_append_of_le_length (le_of_lt hj),
            List.drop_eq_getElem_cons hj, List.cons_append,
            show section_start = '%' ::
              "-----------Achievements / Publications / Certifications-----------".toList
              from rfl]
          simp [isPre, hP _ (List.getElem_mem hj)])
    simpa using this
  have hfind2 : pyFind section_end
      (P ++ (section_start ++ (midChunk ++ (section_end ++ "\n".toList))))
      (P.length : Int) = ((P.length + 98 : Nat) : Int) := by
    apply pyFind_eq section_end _ P.length (P.length + 98) (by omega) (by omega)
    · rw [show P ++ (section_start ++ (midChunk ++ (section_end ++ "\n".toList))) =
        (P ++ (section_start ++ midChunk)) ++ (section_end ++ "\n".toList)
        from by simp [List.append_assoc]]
      have hl2 : (P ++ (section_start ++ midChunk)).length = P.length + 98 := by
        rw [List.length_append, hq98]
      rw [← hl2, List.drop_left]
      exact isPre_self_append _ _
    · intro j hj1 hj2
      obtain ⟨m, rfl⟩ : ∃ m, j = P.length + m := ⟨j - P.length, by omega⟩
      have hm : m < 98 := by omega
      rw [show P ++ (section_start ++ (midChunk ++ (section_end ++ "\n".toList))) =
        P ++ ((section_start ++ midChunk) ++ (section_end ++ "\n".toList))
        from by simp [List.append_assoc]]
      rw [List.drop_append,
        List.drop_append_of_le_length (by omega : m ≤ (section_start ++ midChunk).length)]
      have hall : ∀ m', m' < 98 →
          isPre section_end ((section_start ++ midChunk).drop m' ++
            (section_end ++ "\n".toList)) = false := by decide
      exact hall m hm
  unfold excise
  simp only [hfind1, hfind2]
  have hg1 : (P.length : Int) ≠ -1 := by omega
  have hse44 : section_end.length = 44 := by decide
  have hg2 : ((P.length + 98 : Nat) : Int) + (section_end.length : Int) ≠ -1 := by
    rw [hse44]
    push_cast
    omega
  rw [if_pos ⟨hg1, hg2⟩]
  have ht1 : ((P.length : Int)).toNat = P.length := Int.toNat_natCast _
  have ht2 : (((P.length + 98 : Nat) : Int) + (section_end.length : Int) + 1).toNat =
      P.length + 143 := by
    rw [hse44]
    push_cast
    omega
  rw [ht1, ht2, List.take_left, ← hlen, List.drop_length, List.append_nil]

/-- Template suffix after the `name` placeholder. -/
def rT1 : Str := ("\n\x7b\x7bphone\x7d\x7d \x7b\x7bemail\x7d\x7d \x7b\x7blinkedin\x7d\x7d \x7b\x7bgithub\x7d\x7d\n\x7b\x7beducation\x7d\x7d\n\x7b\x7bexperience\x7d\x7d\n\x7b\x7bprojects\x7d\x7d\n\x7b\x7bskills\x7d\x7d\n%-----------Achievements / Publications / Certifications-----------\n\x7b\x7bachievements_publications\x7d\x7d\n%-------------------------------------------\n").toList

/-- Template suffix after the `phone` placeholder. -/
def rT2 : Str := (" \x7b\x7bemail\x7d\x7d \x7b\x7blinkedin\x7d\x7d \x7b\x7bgithub\x7d\x7d\n\x7b\x7beducation\x7d\x7d\n\x7b\x7bexperience\x7d\x7d\n\x7b\x7bprojects\x7d\x7d\n\x7b\x7bskills\x7d\x7d\n%-----------Achievements / Publications / Certifications-----------\n\x7b\x7bachievements_publications\x7d\x7d\n%-------------------------------------------\n").toList

/-- Template suffix after the `email` placeholder. -/
def rT3 : Str := (" \x7b\x7blinkedin\x7d\x7d \x7b\x7bgithub\x7d\x7d\n\x7b\x7beducation\x7d\x7d\n\x7b\x7bexperience\x7d\x7d\n\x7b\x7bprojects\x7d\x7d\n\x7b\x7bskills\x7d\x7d\n%-----------Achievements / Publications / Certifications-----------\n\x7b\x7bachievements_publications\x7d\x7d\n%-------------------------------------------\n").toList

/-- Template suffix after the `linkedin` placeholder. -/
def rT4 : Str := (" \x7b\x7bgithub\x7d\x7d\n\x7b\x7beducation\x7d\x7d\n\x7b\x7bexperience\x7d\x7d\n\x7b\x7bprojects\x7d\x7d\n\x7b\x7bskills\x7d\x7d\n%-----------Achievements / Publications / Certifications-----------\n\x7b\x7bachievements_publications\x7d\x7d\n%-------------------------------------------\n").toList

/-- Template suffix after the `github` placeholder. -/
def rT5 : Str := ("\n\x7b\x7beducation\x7d\x7d\n\x7b\x7bexperience\x7d\x7d\n\x7b\x7bprojects\x7d\x7d\n\x7b\x7bskills\x7d\x7d\n%-----------Achievements / Publications / Certifications-----------\n\x7b\x7bachievements_publications\x7d\x7d\n%-------------------------------------------\n").toList

/-- Template suffix after emptying `education`. -/
def rT6 : Str := ("\n\n\x7b\x7bexperience\x7d\x7d\n\x7b\x7bprojects\x7d\x7d\n\x7b\x7bskills\x7d\x7d\n%-----------Achievements / Publications / Certifications-----------\n\x7b\x7bachievements_publications\x7d\x7d\n%-------------------------------------------\n").toList

/-- Template suffix after emptying `experience`. -/
def rT7 : Str := ("\n\n\n\x7b\x7bprojects\x7d\x7d\n\x7b\x7bskills\x7d\x7d\n%-----------Achievements / Publications / Certifications-----------\n\x7b\x7bachievements_publications\x7d\x7d\n%-------------------------------------------\n").toList

/-- Template suffix after emptying `projects`. -/
def rT8 : Str := ("\n\n\n\n\x7b\x7bskills\x7d\x7d\n%-----------Achievements / Publications / Certifications-----------\n\x7b\x7bachievements_publications\x7d\x7d\n%-------------------------------------------\n").toList

/-- A character other than an opening brace cannot begin a placeholder match. -/
theorem hbrace (s : Str) (hs : plainStr s = true) (ps : Str) :
    ∀ c ∈ s, ∀ t : Str, isPre ('{' :: ps) (c :: t) = false := by
  intro c hc t
  simp [isPre, (plainStr_spec s hs c hc).2.2]

/-- The five substituted fragments and chunk characters of `docP` contain no percent
character. -/
theorem docP_no_pct (nS pS eS lS gS : Str)
    (h1 : plainStr nS = true) (h2 : plainStr pS = true) (h3 : plainStr eS = true)
    (h4 : plainStr lS = true) (h5 : plainStr gS = true) :
    ∀ c ∈ docP nS pS eS lS gS, ('%' == c) = false := by
  have hc1 : ∀ x ∈ ("\\documentclass\x7barticle\x7d\n".toList : Str),
      ('%' == x) = false := by decide
  have hc2 : ∀ x ∈ ("\n".toList : Str), ('%' == x) = false := by decide
  have hc3 : ∀ x ∈ (" ".toList : Str), ('%' == x) = false := by decide
  have hc4 : ∀ x ∈ ("\n\n\n\n\n".toList : Str), ('%' == x) = false := by decide
  intro c hc
  simp only [docP, headChunk, fiveNL, List.mem_append] at hc
  rcases hc with hc | hc | hc | hc | hc | hc | hc | hc | hc | hc | hc
  · exact hc1 c hc
  · exact (plainStr_spec nS h1 c hc).2.1
  · exact hc2 c hc
  · exact (plainStr_spec pS h2 c hc).2.1
  · exact hc3 c hc
  · exact (plainStr_spec eS h3 c hc).2.1
  · exact hc3 c hc
  · exact (plainStr_spec lS h4 c hc).2.1
  · exact hc3 c hc
  · exact (plainStr_spec gS h5 c hc).2.1
  · exact hc4 c hc

/-- Rendering a plain-field, empty-section, compound-free input: the result is exactly
`docP` — the template with the fields substituted and the compound region excised. -/
theorem render_plain_decomp (nS pS eS lS gS : Str)
    (h1 : plainStr nS = true) (h2 : plainStr pS = true) (h3 : plainStr eS = true)
    (h4 : plainStr lS = true) (h5 : plainStr gS = true) :
    render_template TEMPLATE (mkPlainData nS pS eS lS gS) =
      .ok (docP nS pS eS lS gS) := by
  have hren : render_template TEMPLATE (mkPlainData nS pS eS lS gS) =
      .ok (excise (pyReplace ("\x7b\x7bskills\x7d\x7d").toList []
        (pyReplace ("\x7b\x7bprojects\x7d\x7d").toList []
          (pyReplace ("\x7b\x7bexperience\x7d\x7d").toList []
            (pyReplace ("\x7b\x7beducation\x7d\x7d").toList []
              (pyReplace ("\x7b\x7bgithub\x7d\x7d").toList (escapeStr gS)
                (pyReplace ("\x7b\x7blinkedin\x7d\x7d").toList (escapeStr lS)
                  (pyReplace ("\x7b\x7bemail\x7d\x7d").toList (escapeStr eS)
                    (pyReplace ("\x7b\x7bphone\x7d\x7d").toList (escapeStr pS)
                      (pyReplace ("\x7b\x7bname\x7d\x7d").toList (escapeStr nS)
                        TEMPLATE)))))))))) := rfl
  rw [hren, plain_escape nS h1, plain_escape pS h2, plain_escape eS h3,
    plain_escape lS h4, plain_escape gS h5]
  rw [show pyReplace ("\x7b\x7bname\x7d\x7d").toList nS TEMPLATE =
    headChunk ++ (nS ++ rT1) from rfl]
  have e2 : pyReplace ("\x7b\x7bphone\x7d\x7d").toList pS (headChunk ++ (nS ++ rT1)) =
      headChunk ++ (nS ++ ("\n".toList ++ (pS ++ rT2))) := by
    show pyReplaceGo ("\x7b\x7bphone\x7d\x7d").toList pS (headChunk ++ (nS ++ rT1)) 0 = _
    have cH : ∀ X, pyReplaceGo ("\x7b\x7bphone\x7d\x7d").toList pS (headChunk ++ X) 0 =
        headChunk ++ pyReplaceGo ("\x7b\x7bphone\x7d\x7d").toList pS X 0 := fun _ => rfl
    have sN : ∀ B, pyReplaceGo ("\x7b\x7bphone\x7d\x7d").toList pS (nS ++ B) 0 =
        nS ++ pyReplaceGo ("\x7b\x7bphone\x7d\x7d").toList pS B 0 :=
      fun B => replace_skip _ pS nS B (fun c hc t => hbrace nS h1 _ c hc t)
    rw [cH, sN, show pyReplaceGo ("\x7b\x7bphone\x7d\x7d").toList pS rT1 0 =
      "\n".toList ++ (pS ++ rT2) from rfl]
  rw [e2]
  have e3 : pyReplace ("\x7b\x7bemail\x7d\x7d").toList eS
      (headChunk ++ (nS ++ ("\n".toList ++ (pS ++ rT2)))) =
      headChunk ++ (nS ++ ("\n".toList ++ (pS ++ (" ".toList ++ (eS ++ rT3))))) := by
    show pyReplaceGo ("\x7b\x7bemail\x7d\x7d").toList eS
      (headChunk ++ (nS ++ ("\n".toList ++ (pS ++ rT2)))) 0 = _
    have cH : ∀ X, pyReplaceGo ("\x7b\x7bemail\x7d\x7d").toList eS (headChunk ++ X) 0 =
        headChunk ++ pyReplaceGo ("\x7b\x7bemail\x7d\x7d").toList eS X 0 := fun _ => rfl
    have cNl : ∀ X, pyReplaceGo ("\x7b\x7bemail\x7d\x7d").toList eS ("\n".toList ++ X) 0 =
        "\n".toList ++ pyReplaceGo ("\x7b\x7bemail\x7d\x7d").toList eS X 0 := fun _ => rfl
    have sN : ∀ B, pyReplaceGo ("\x7b\x7bemail\x7d\x7d").toList eS (nS ++ B) 0 =
        nS ++ pyReplaceGo ("\x7b\x7bemail\x7d\x7d").toList eS B 0 :=
      fun B => replace_skip _ eS nS B (fun c hc t => hbrace nS h1 _ c hc t)
    have sP : ∀ B, pyReplaceGo ("\x7b\x7bemail\x7d\x7d").toList eS (pS ++ B) 0 =
        pS ++ pyReplaceGo ("\x7b\x7bemail\x7d\x7d").toList eS B 0 :=
      fun B => replace_skip _ eS pS B (fun c hc t => hbrace pS h2 _ c hc t)
    rw [cH, sN, cNl, sP, show pyReplaceGo ("\x7b\x7bemail\x7d\x7d").toList eS rT2 0 =
      " ".toList ++ (eS ++ rT3) from rfl]
  rw [e3]
  have e4 : pyReplace ("\x7b\x7blinkedin\x7d\x7d").toList lS
      (headChunk ++ (nS ++ ("\n".toList ++ (pS ++ (" ".toList ++ (eS ++ rT3)))))) =
      headChunk ++ (nS ++ ("\n".toList ++ (pS ++ (" ".toList ++
        (eS ++ (" ".toList ++ (lS ++ rT4))))))) := by
    show pyReplaceGo ("\x7b\x7blinkedin\x7d\x7d").toList lS
      (headChunk ++ (nS ++ ("\n".toList ++ (pS ++ (" ".toList ++ (eS ++ rT3)))))) 0 = _
    have cH : ∀ X, pyReplaceGo ("\x7b\x7blinkedin\x7d\x7d").toList lS (headChunk ++ X) 0 =
        headChunk ++ pyReplaceGo ("\x7b\x7blinkedin\x7d\x7d").toList lS X 0 := fun _ => rfl
    have cNl : ∀ X, pyReplaceGo ("\x7b\x7blinkedin\x7d\x7d").toList lS ("\n".toList ++ X) 0 =
        "\n".toList ++ pyReplaceGo ("\x7b\x7blinkedin\x7d\x7d").toList lS X 0 := fun _ => rfl
    have cSp : ∀ X, pyReplaceGo ("\x7b\x7blinkedin\x7d\x7d").toList lS (" ".toList ++ X) 0 =
        " ".toList ++ pyReplaceGo ("\x7b\x7blinkedin\x7d\x7d").toList lS X 0 := fun _ => rfl
    have sN : ∀ B, pyReplaceGo ("\x7b\x7blinkedin\x7d\x7d").toList lS (nS ++ B) 0 =
        nS ++ pyReplaceGo ("\x7b\x7blinkedin\x7d\x7d").toList lS B 0 :=
      fun B => replace_skip _ lS nS B (fun c hc t => hbrace nS h1 _ c hc t)
    have sP : ∀ B, pyReplaceGo ("\x7b\x7blinkedin\x7d\x7d").toList lS (pS ++ B) 0 =
        pS ++ pyReplaceGo ("\x7b\x7blinkedin\x7d\x7d").toList lS B 0 :=
      fun B => replace_skip _ lS pS B (fun c hc t => hbrace pS h2 _ c hc t)
    have sE : ∀ B, pyReplaceGo ("\x7b\x7blinkedin\x7d\x7d").toList lS (eS ++ B) 0 =
        eS ++ pyReplaceGo ("\x7b\x7blinkedin\x7d\x7d").toList lS B 0 :=
      fun B => replace_skip _ lS eS B (fun c hc t => hbrace eS h3 _ c hc t)
    rw [cH, sN, cNl, sP, cSp, sE,
      show pyReplaceGo ("\x7b\x7blinkedin\x7d\x7d").toList lS rT3 0 =
        " ".toList ++ (lS ++ rT4) from rfl]
  rw [e4]
  have e5 : pyReplace ("\x7b\x7bgithub\x7d\x7d").toList gS
      (headChunk ++ (nS ++ ("\n".toList ++ (pS ++ (" ".toList ++
        (eS ++ (" ".toList ++ (lS ++ rT4)))))))) =
      headChunk ++ (nS ++ ("\n".toList ++ (pS ++ (" ".toList ++
        (eS ++ (" ".toList ++ (lS ++ (" ".toList ++ (gS ++ rT5))))))))) := by
    show pyReplaceGo ("\x7b\x7bgithub\x7d\x7d").toList gS
      (headChunk ++ (nS ++ ("\n".toList ++ (pS ++ (" ".toList ++
        (eS ++ (" ".toList ++ (lS ++ rT4)))))))) 0 = _
    have cH : ∀ X, pyReplaceGo ("\x7b\x7bgithub\x7d\x7d").toList gS (headChunk ++ X) 0 =
        headChunk ++ pyReplaceGo ("\x7b\x7bgithub\x7d\x7d").toList gS X 0 := fun _ => rfl
    have cNl : ∀ X, pyReplaceGo ("\x7b\x7bgithub\x7d\x7d").toList gS ("\n".toList ++ X) 0 =
        "\n".toList ++ pyReplaceGo ("\x7b\x7bgithub\x7d\x7d").toList gS X 0 := fun _ => rfl
    have cSp : ∀ X, pyReplaceGo ("\x7b\x7bgithub\x7d\x7d").toList gS (" ".toList ++ X) 0 =
        " ".toList ++ pyReplaceGo ("\x7b\x7bgithub\x7d\x7d").toList gS X 0 := fun _ => rfl
    have sN : ∀ B, pyReplaceGo ("\x7b\x7bgithub\x7d\x7d").toList gS (nS ++ B) 0 =
        nS ++ pyReplaceGo ("\x7b\x7bgithub\x7d\x7d").toList gS B 0 :=
      fun B => replace_skip _ gS nS B (fun c hc t => hbrace nS h1 _ c hc t)
    have sP : ∀ B, pyReplaceGo ("\x7b\x7bgithub\x7d\x7d").toList gS (pS ++ B) 0 =
        pS ++ pyReplaceGo ("\x7b\x7bgithub\x7d\x7d").toList gS B 0 :=
      fun B => replace_skip _ gS pS B (fun c hc t => hbrace pS h2 _ c hc t)
    have sE : ∀ B, pyReplaceGo ("\x7b\x7bgithub\x7d\x7d").toList gS (eS ++ B) 0 =
        eS ++ pyReplaceGo ("\x7b\x7bgithub\x7d\x7d").toList gS B 0 :=
      fun B => replace_skip _ gS eS B (fun c hc t => hbrace eS h3 _ c hc t)
    have sL : ∀ B, pyReplaceGo ("\x7b\x7bgithub\x7d\x7d").toList gS (lS ++ B) 0 =
        lS ++ pyReplaceGo ("\x7b\x7bgithub\x7d\x7d").toList gS B 0 :=
      fun B => replace_skip _ gS lS B (fun c hc t => hbrace lS h4 _ c hc t)
    rw [cH, sN, cNl, sP, cSp, sE, cSp, sL,
      show pyReplaceGo ("\x7b\x7bgithub\x7d\x7d").toList gS rT4 0 =
        " ".toList ++ (gS ++ rT5) from rfl]
  rw [e5]
  have e6 : pyReplace ("\x7b\x7beducation\x7d\x7d").toList []
      (headChunk ++ (nS ++ ("\n".toList ++ (pS ++ (" ".toList ++
        (eS ++ (" ".toList ++ (lS ++ (" ".toList ++ (gS ++ rT5)))))))))) =
      headChunk ++ (nS ++ ("\n".toList ++ (pS ++ (" ".toList ++
        (eS ++ (" ".toList ++ (lS ++ (" ".toList ++ (gS ++ rT6))))))))) := by
    show pyReplaceGo ("\x7b\x7beducation\x7d\x7d").toList []
      (headChunk ++ (nS ++ ("\n".toList ++ (pS ++ (" ".toList ++
        (eS ++ (" ".toList ++ (lS ++ (" ".toList ++ (gS ++ rT5)))))))))) 0 = _
    have cH : ∀ X, pyReplaceGo ("\x7b\x7beducation\x7d\x7d").toList [] (headChunk ++ X) 0 =
        headChunk ++ pyReplaceGo ("\x7b\x7beducation\x7d\x7d").toList [] X 0 := fun _ => rfl
    have cNl : ∀ X, pyReplaceGo ("\x7b\x7beducation\x7d\x7d").toList [] ("\n".toList ++ X) 0 =
        "\n".toList ++ pyReplaceGo ("\x7b\x7beducation\x7d\x7d").toList [] X 0 := fun _ => rfl
    have cSp : ∀ X, pyReplaceGo ("\x7b\x7beducation\x7d\x7d").toList [] (" ".toList ++ X) 0 =
        " ".toList ++ pyReplaceGo ("\x7b\x7beducation\x7d\x7d").toList [] X 0 := fun _ => rfl
    have sN : ∀ B, pyReplaceGo ("\x7b\x7beducation\x7d\x7d").toList [] (nS ++ B) 0 =
        nS ++ pyReplaceGo ("\x7b\x7beducation\x7d\x7d").toList [] B 0 :=
      fun B => replace_skip _ [] nS B (fun c hc t => hbrace nS h1 _ c hc t)
    have sP : ∀ B, pyReplaceGo ("\x7b\x7beducation\x7d\x7d").toList [] (pS ++ B) 0 =
        pS ++ pyReplaceGo ("\x7b\x7beducation\x7d\x7d").toList [] B 0 :=
      fun B => replace_skip _ [] pS B (fun c hc t => hbrace pS h2 _ c hc t)
    have sE : ∀ B, pyReplaceGo ("\x7b\x7beducation\x7d\x7d").toList [] (eS ++ B) 0 =
        eS ++ pyReplaceGo ("\x7b\x7beducation\x7d\x7d").toList [] B 0 :=
      fun B => replace_skip _ [] eS B (fun c hc t => hbrace eS h3 _ c hc t)
    have sL : ∀ B, pyReplaceGo ("\x7b\x7beducation\x7d\x7d").toList [] (lS ++ B) 0 =
        lS ++ pyReplaceGo ("\x7b\x7beducation\x7d\x7d").toList [] B 0 :=
      fun B => replace_skip _ [] lS B (fun c hc t => hbrace lS h4 _ c hc t)
    have sG : ∀ B, pyReplaceGo ("\x7b\x7beducation\x7d\x7d").toList [] (gS ++ B) 0 =
        gS ++ pyReplaceGo ("\x7b\x7beducation\x7d\x7d").toList [] B 0 :=
      fun B => replace_skip _ [] gS B (fun c hc t => hbrace gS h5 _ c hc t)
    rw [cH, sN, cNl, sP, cSp, sE, cSp, sL, cSp, sG,
      show pyReplaceGo ("\x7b\x7beducation\x7d\x7d").toList [] rT5 0 = rT6 from rfl]
  rw [e6]
  have e7 : pyReplace ("\x7b\x7bexperience\x7d\x7d").toList []
      (headChunk ++ (nS ++ ("\n".toList ++ (pS ++ (" ".toList ++
        (eS ++ (" ".toList ++ (lS ++ (" ".toList ++ (gS ++ rT6)))))))))) =
      headChunk ++ (nS ++ ("\n".toList ++ (pS ++ (" ".toList ++
        (eS ++ (" ".toList ++ (lS ++ (" ".toList ++ (gS ++ rT7))))))))) := by
    show pyReplaceGo ("\x7b\x7bexperience\x7d\x7d").toList []
      (headChunk ++ (nS ++ ("\n".toList ++ (pS ++ (" ".toList ++
        (eS ++ (" ".toList ++ (lS ++ (" ".toList ++ (gS ++ rT6)))))))))) 0 = _
    have cH : ∀ X, pyReplaceGo ("\x7b\x7bexperience\x7d\x7d").toList [] (headChunk ++ X) 0 =
        headChunk ++ pyReplaceGo ("\x7b\x7bexperience\x7d\x7d").toList [] X 0 := fun _ => rfl
    have cNl : ∀ X, pyReplaceGo ("\x7b\x7bexperience\x7d\x7d").toList [] ("\n".toList ++ X) 0 =
        "\n".toList ++ pyReplaceGo ("\x7b\x7bexperience\x7d\x7d").toList [] X 0 := fun _ => rfl
    have cSp : ∀ X, pyReplaceGo ("\x7b\x7bexperience\x7d\x7d").toList [] (" ".toList ++ X) 0 =
        " ".toList ++ pyReplaceGo ("\x7b\x7bexperience\x7d\x7d").toList [] X 0 := fun _ => rfl
    have sN : ∀ B, pyReplaceGo ("\x7b\x7bexperience\x7d\x7d").toList [] (nS ++ B) 0 =
        nS ++ pyReplaceGo ("\x7b\x7bexperience\x7d\x7d").toList [] B 0 :=
      fun B => replace_skip _ [] nS B (fun c hc t => hbrace nS h1 _ c hc t)
    have sP : ∀ B, pyReplaceGo ("\x7b\x7bexperience\x7d\x7d").toList [] (pS ++ B) 0 =
        pS ++ pyReplaceGo ("\x7b\x7bexperience\x7d\x7d").toList [] B 0 :=
      fun B => replace_skip _ [] pS B (fun c hc t => hbrace pS h2 _ c hc t)
    have sE : ∀ B, pyReplaceGo ("\x7b\x7bexperience\x7d\x7d").toList [] (eS ++ B) 0 =
        eS ++ pyReplaceGo ("\x7b\x7bexperience\x7d\x7d").toList [] B 0 :=
      fun B => replace_skip _ [] eS B (fun c hc t => hbrace eS h3 _ c hc t)
    have sL : ∀ B, pyReplaceGo ("\x7b\x7bexperience\x7d\x7d").toList [] (lS ++ B) 0 =
        lS ++ pyReplaceGo ("\x7b\x7bexperience\x7d\x7d").toList [] B 0 :=
      fun B => replace_skip _ [] lS B (fun c hc t => hbrace lS h4 _ c hc t)
    have sG : ∀ B, pyReplaceGo ("\x7b\x7bexperience\x7d\x7d").toList [] (gS ++ B) 0 =
        gS ++ pyReplaceGo ("\x7b\x7bexperience\x7d\x7d").toList [] B 0 :=
      fun B => replace_skip _ [] gS B (fun c hc t => hbrace gS h5 _ c hc t)
    rw [cH, sN, cNl, sP, cSp, sE, cSp, sL, cSp, sG,
      show pyReplaceGo ("\x7b\x7bexperience\x7d\x7d").toList [] rT6 0 = rT7 from rfl]
  rw [e7]
  have e8 : pyReplace ("\x7b\x7bprojects\x7d\x7d").toList []
      (headChunk ++ (nS ++ ("\n".toList ++ (pS ++ (" ".toList ++
        (eS ++ (" ".toList ++ (lS ++ (" ".toList ++ (gS ++ rT7)))))))))) =
      headChunk ++ (nS ++ ("\n".toList ++ (pS ++ (" ".toList ++
        (eS ++ (" ".toList ++ (lS ++ (" ".toList ++ (gS ++ rT8))))))))) := by
    show pyReplaceGo ("\x7b\x7bprojects\x7d\x7d").toList []
      (headChunk ++ (nS ++ ("\n".toList ++ (pS ++ (" ".toList ++
        (eS ++ (" ".toList ++ (lS ++ (" ".toList ++ (gS ++ rT7)))))))))) 0 = _
    have cH : ∀ X, pyReplaceGo ("\x7b\x7bprojects\x7d\x7d").toList [] (headChunk ++ X) 0 =
        headChunk ++ pyReplaceGo ("\x7b\x7bprojects\x7d\x7d").toList [] X 0 := fun _ => rfl
    have cNl : ∀ X, pyReplaceGo ("\x7b\x7bprojects\x7d\x7d").toList [] ("\n".toList ++ X) 0 =
        "\n".toList ++ pyReplaceGo ("\x7b\x7bprojects\x7d\x7d").toList [] X 0 := fun _ => rfl
    have cSp : ∀ X, pyReplaceGo ("\x7b\x7bprojects\x7d\x7d").toList [] (" ".toList ++ X) 0 =
        " ".toList ++ pyReplaceGo ("\x7b\x7bprojects\x7d\x7d").toList [] X 0 := fun _ => rfl
    have sN : ∀ B, pyReplaceGo ("\x7b\x7bprojects\x7d\x7d").toList [] (nS ++ B) 0 =
        nS ++ pyReplaceGo ("\x7b\x7bprojects\x7d\x7d").toList [] B 0 :=
      fun B => replace_skip _ [] nS B (fun c hc t => hbrace nS h1 _ c hc t)
    have sP : ∀ B, pyReplaceGo ("\x7b\x7bprojects\x7d\x7d").toList [] (pS ++ B) 0 =
        pS ++ pyReplaceGo ("\x7b\x7bprojects\x7d\x7d").toList [] B 0 :=
      fun B => replace_skip _ [] pS B (fun c hc t => hbrace pS h2 _ c hc t)
    have sE : ∀ B, pyReplaceGo ("\x7b\x7bprojects\x7d\x7d").toList [] (eS ++ B) 0 =
        eS ++ pyReplaceGo ("\x7b\x7bprojects\x7d\x7d").toList [] B 0 :=
      fun B => replace_skip _ [] eS B (fun c hc t => hbrace eS h3 _ c hc t)
    have sL : ∀ B, pyReplaceGo ("\x7b\x7bprojects\x7d\x7d").toList [] (lS ++ B) 0 =
        lS ++ pyReplaceGo ("\x7b\x7bprojects\x7d\x7d").toList [] B 0 :=
      fun B => replace_skip _ [] lS B (fun c hc t => hbrace lS h4 _ c hc t)
    have sG : ∀ B, pyReplaceGo ("\x7b\x7bprojects\x7d\x7d").toList [] (gS ++ B) 0 =
        gS ++ pyReplaceGo ("\x7b\x7bprojects\x7d\x7d").toList [] B 0 :=
      fun B => replace_skip _ [] gS B (fun c hc t => hbrace gS h5 _ c hc t)
    rw [cH, sN, cNl, sP, cSp, sE, cSp, sL, cSp, sG,
      show pyReplaceGo ("\x7b\x7bprojects\x7d\x7d").toList [] rT7 0 = rT8 from rfl]
  rw [e8]
  have e9 : pyReplace ("\x7b\x7bskills\x7d\x7d").toList []
      (headChunk ++ (nS ++ ("\n".toList ++ (pS ++ (" ".toList ++
        (eS ++ (" ".toList ++ (lS ++ (" ".toList ++ (gS ++ rT8)))))))))) =
      headChunk ++ (nS ++ ("\n".toList ++ (pS ++ (" ".toList ++
        (eS ++ (" ".toList ++ (lS ++ (" ".toList ++ (gS ++ (fiveNL ++
          (section_start ++ (midChunk ++ (section_end ++ "\n".toList))))))))))))) := by
    show pyReplaceGo ("\x7b\x7bskills\x7d\x7d").toList []
      (headChunk ++ (nS ++ ("\n".toList ++ (pS ++ (" ".toList ++
        (eS ++ (" ".toList ++ (lS ++ (" ".toList ++ (gS ++ rT8)))))))))) 0 = _
    have cH : ∀ X, pyReplaceGo ("\x7b\x7bskills\x7d\x7d").toList [] (headChunk ++ X) 0 =
        headChunk ++ pyReplaceGo ("\x7b\x7bskills\x7d\x7d").toList [] X 0 := fun _ => rfl
    have cNl : ∀ X, pyReplaceGo ("\x7b\x7bskills\x7d\x7d").toList [] ("\n".toList ++ X) 0 =
        "\n".toList ++ pyReplaceGo ("\x7b\x7bskills\x7d\x7d").toList [] X 0 := fun _ => rfl
    have cSp : ∀ X, pyReplaceGo ("\x7b\x7bskills\x7d\x7d").toList [] (" ".toList ++ X) 0 =
        " ".toList ++ pyReplaceGo ("\x7b\x7bskills\x7d\x7d").toList [] X 0 := fun _ => rfl
    have sN : ∀ B, pyReplaceGo ("\x7b\x7bskills\x7d\x7d").toList [] (nS ++ B) 0 =
        nS ++ pyReplaceGo ("\x7b\x7bskills\x7d\x7d").toList [] B 0 :=
      fun B => replace_skip _ [] nS B (fun c hc t => hbrace nS h1 _ c hc t)
    have sP : ∀ B, pyReplaceGo ("\x7b\x7bskills\x7d\x7d").toList [] (pS ++ B) 0 =
        pS ++ pyReplaceGo ("\x7b\x7bskills\x7d\x7d").toList [] B 0 :=
      fun B => replace_skip _ [] pS B (fun c hc t => hbrace pS h2 _ c hc t)
    have sE : ∀ B, pyReplaceGo ("\x7b\x7bskills\x7d\x7d").toList [] (eS ++ B) 0 =
        eS ++ pyReplaceGo ("\x7b\x7bskills\x7d\x7d").toList [] B 0 :=
      fun B => replace_skip _ [] eS B (fun c hc t => hbrace eS h3 _ c hc t)
    have sL : ∀ B, pyReplaceGo ("\x7b\x7bskills\x7d\x7d").toList [] (lS ++ B) 0 =
        lS ++ pyReplaceGo ("\x7b\x7bskills\x7d\x7d").toList [] B 0 :=
      fun B => replace_skip _ [] lS B (fun c hc t => hbrace lS h4 _ c hc t)
    have sG : ∀ B, pyReplaceGo ("\x7b\x7bskills\x7d\x7d").toList [] (gS ++ B) 0 =
        gS ++ pyReplaceGo ("\x7b\x7bskills\x7d\x7d").toList [] B 0 :=
      fun B => replace_skip _ [] gS B (fun c hc t => hbrace gS h5 _ c hc t)
    rw [cH, sN, cNl, sP, cSp, sE, cSp, sL, cSp, sG,
      show pyReplaceGo ("\x7b\x7bskills\x7d\x7d").toList [] rT8 0 =
        fiveNL ++ (section_start ++ (midChunk ++ (section_end ++ "\n".toList)))
        from rfl]
  rw [e9]
  rw [show headChunk ++ (nS ++ ("\n".toList ++ (pS ++ (" ".toList ++
      (eS ++ (" ".toList ++ (lS ++ (" ".toList ++ (gS ++ (fiveNL ++
        (section_start ++ (midChunk ++ (section_end ++ "\n".toList))))))))))))) =
    docP nS pS eS lS gS ++ (section_start ++ (midChunk ++ (section_end ++ "\n".toList)))
    from by simp [docP, List.append_assoc]]
  rw [excise_decomp _ (docP_no_pct nS pS eS lS gS h1 h2 h3 h4 h5)]

/-- A plain-field, empty-section rendered document contains neither boundary marker
nor the item-list wrapper string. -/
theorem docP_no_markers (nS pS eS lS gS : Str)
    (h1 : plainStr nS = true) (h2 : plainStr pS = true) (h3 : plainStr eS = true)
    (h4 : plainStr lS = true) (h5 : plainStr gS = true) :
    containsSub section_start (docP nS pS eS lS gS) = false ∧
    containsSub section_end (docP nS pS eS lS gS) = false ∧
    containsSub listStartStr (docP nS pS eS lS gS) = false := by
  have hpct := docP_no_pct nS pS eS lS gS h1 h2 h3 h4 h5
  refine ⟨?_, ?_, ?_⟩
  · exact containsSub_eq_false _ _
      (fun i _ => isPre_false_everywhere '%' _ _ hpct i)
  · exact containsSub_eq_false _ _
      (fun i _ => isPre_false_everywhere '%' _ _ hpct i)
  · have hTail : ∀ c ∈ (("documentclass\x7barticle\x7d\n".toList : Str) ++
        (nS ++ ("\n".toList ++ (pS ++ (" ".toList ++ (eS ++ (" ".toList ++
          (lS ++ (" ".toList ++ (gS ++ fiveNL)))))))))),
        ('\\' == c) = false := by
      have hc1 : ∀ x ∈ ("documentclass\x7barticle\x7d\n".toList : Str),
          ('\\' == x) = false := by decide
      have hc2 : ∀ x ∈ ("\n".toList : Str), ('\\' == x) = false := by decide
      have hc3 : ∀ x ∈ (" ".toList : Str), ('\\' == x) = false := by decide
      have hc4 : ∀ x ∈ ("\n\n\n\n\n".toList : Str), ('\\' == x) = false := by decide
      intro c hc
      simp only [fiveNL, List.mem_append] at hc
      rcases hc with hc | hc | hc | hc | hc | hc | hc | hc | hc | hc | hc
      · exact hc1 c hc
      · exact (plainStr_spec nS h1 c hc).1
      · exact hc2 c hc
      · exact (plainStr_spec pS h2 c hc).1
      · exact hc3 c hc
      · exact (plainStr_spec eS h3 c hc).1
      · exact hc3 c hc
      · exact (plainStr_spec lS h4 c hc).1
      · exact hc3 c hc
      · exact (plainStr_spec gS h5 c hc).1
      · exact hc4 c hc
    apply containsSub_eq_false
    intro i _
    cases i with
    | zero => rfl
    | succ i =>
      rw [show docP nS pS eS lS gS = '\\' ::
        (("documentclass\x7barticle\x7d\n".toList : Str) ++
          (nS ++ ("\n".toList ++ (pS ++ (" ".toList ++ (eS ++ (" ".toList ++
            (lS ++ (" ".toList ++ (gS ++ fiveNL)))))))))) from rfl,
        List.drop_succ_cons]
      exact isPre_false_everywhere '\\' _ _ hTail i

/-- A non-empty compound result decomposes into the three sources' item strings, each
produced by `aps_source_items`, around the shared list wrapper. -/
theorem build_aps_nonempty_shape (data : Dict) (s : Str)
    (hok : build_achievements_publications_section data = .ok s) (hne : s ≠ []) :
    ∃ a p c, aps_source_items format_achievement_item data "achievements" = .ok a ∧
      aps_source_items format_publication_item data "publications" = .ok p ∧
      aps_source_items format_certification_item data "certifications" = .ok c ∧
      s = listStartStr ++ (a ++ (p ++ c)) ++ listEndStr := by
  by_cases hall : (!truthyKey data "achievements" && !truthyKey data "publications" &&
      !truthyKey data "certifications") = true
  · unfold build_achievements_publications_section at hok
    rw [if_pos hall] at hok
    injection hok with h
    exact absurd h.symm hne
  · unfold build_achievements_publications_section at hok
    rw [if_neg hall] at hok
    cases hA : aps_source_items format_achievement_item data "achievements" with
    | error e =>
      rw [hA] at hok
      cases (show (Except.error e : Res Str) = Except.ok s from hok)
    | ok a =>
      cases hP : aps_source_items format_publication_item data "publications" with
      | error e =>
        rw [hA, hP] at hok
        cases (show (Except.error e : Res Str) = Except.ok s from hok)
      | ok p =>
        cases hC : aps_source_items format_certification_item data "certifications" with
        | error e =>
          rw [hA, hP, hC] at hok
          cases (show (Except.error e : Res Str) = Except.ok s from hok)
        | ok c =>
          rw [hA, hP, hC] at hok
          simp only [ok_bind] at hok
          injection hok with h
          refine ⟨a, p, c, rfl, rfl, rfl, ?_⟩
          rw [← h]
          simp [List.append_assoc]

/-- A fully-populated input whose achievements, publications and certifications keys are
entirely absent but whose experience section holds one entry. -/
def c7_dataA : Dict :=
  [("name", .str "Jane Doe".toList),
   ("contact", .dict [("phone", .str "555-0100".toList), ("email", .str "j@x.com".toList),
                      ("linkedin", .str "jane".toList), ("github", .str "jane".toList)]),
   ("education", .list []),
   ("experience", .list [.dict [("company", .str "ACME".toList),
                                ("role", .str "Dev".toList),
                                ("location", .str "NY".toList),
                                ("dates", .str "2020".toList),
                                ("bullets", .list [.str "Did X".toList])]]),
   ("projects", .list []),
   ("skills", .list [])]

/-- An all-sections-empty, compound-keys-absent input whose name field is the end
boundary marker text itself. -/
def c7_dataB : Dict :=
  [("name", .str section_end),
   ("contact", .dict [("phone", .str "p".toList), ("email", .str "e".toList),
                      ("linkedin", .str "l".toList), ("github", .str "g".toList)]),
   ("education", .list []),
   ("experience", .list []),
   ("projects", .list []),
   ("skills", .list [])]

/-- Counterexample to the document-level half of C7 read over all inputs: (a) with
achievements, publications and certifications all absent — the compound builder
returning the empty string — a non-empty experience section still puts the compound
section's list wrapper string into the rendered document, because the experience
builder emits the same wrapper; (b) a name field equal to the end boundary marker text
is substituted before the excision and survives it, so the rendered document contains
boundary marker text even though every section is empty and the compound keys are
absent. -/
theorem C7_counterexample :
    (truthyKey c7_dataA "achievements" = false ∧
     truthyKey c7_dataA "publications" = false ∧
     truthyKey c7_dataA "certifications" = false ∧
     build_achievements_publications_section c7_dataA = .ok [] ∧
     (render_template TEMPLATE c7_dataA).isOk = true ∧
     containsSub listStartStr (okStr (render_template TEMPLATE c7_dataA)) = true) ∧
    (truthyKey c7_dataB "achievements" = false ∧
     truthyKey c7_dataB "publications" = false ∧
     truthyKey c7_dataB "certifications" = false ∧
     build_achievements_publications_section c7_dataB = .ok [] ∧
     (render_template TEMPLATE c7_dataB).isOk = true ∧
     containsSub section_end (okStr (render_template TEMPLATE c7_dataB)) = true) :=
  ⟨⟨by decide, by decide, by decide, rfl, by decide, by decide⟩,
   ⟨by decide, by decide, by decide, rfl, by decide, by decide⟩⟩

/-- C7 (corrected): the compound builder returns the empty string exactly when all
three of achievements, publications and certifications are absent or falsy; a
non-empty result is one list environment holding the three sources' item strings in
fixed order, where a falsy source contributes the empty string and a truthy
list-valued source contributes exactly its formatted items in input order; and the
document-level omission holds for every input whose name and contact fields are free
of LaTeX-reserved characters, with the four section lists empty and the compound keys
absent: the rendered document then contains neither boundary marker text nor the list
wrapper. The claim's unrestricted document-level reading is false: the wrapper string
is shared with the experience and projects builders, and marker text occurring inside
a field value survives the excision. -/
theorem C7_compound_section_amended :
    (∀ data : Dict,
      (build_achievements_publications_section data = .ok [] ↔
        truthyKey data "achievements" = false ∧ truthyKey data "publications" = false ∧
        truthyKey data "certifications" = false)) ∧
    (∀ (data : Dict) (s : Str), build_achievements_publications_section data = .ok s →
      s ≠ [] →
      ∃ a p c, aps_source_items format_achievement_item data "achievements" = .ok a ∧
        aps_source_items format_publication_item data "publications" = .ok p ∧
        aps_source_items format_certification_item data "certifications" = .ok c ∧
        s = listStartStr ++ (a ++ (p ++ c)) ++ listEndStr) ∧
    (∀ (fmt : Val → Str) (data : Dict) (k : String),
      (truthyKey data k = false → aps_source_items fmt data k = .ok []) ∧
      (∀ xs, dictGet data k = some (.list xs) → truthyKey data k = true →
        aps_source_items fmt data k =
          .ok (xs.foldl (fun acc x => acc ++ fmt x) []))) ∧
    (∀ nS pS eS lS gS : Str, plainStr nS = true → plainStr pS = true →
      plainStr eS = true → plainStr lS = true → plainStr gS = true →
      render_template TEMPLATE (mkPlainData nS pS eS lS gS) =
        .ok (docP nS pS eS lS gS) ∧
      containsSub section_start (docP nS pS eS lS gS) = false ∧
      containsSub section_end (docP nS pS eS lS gS) = false ∧
      containsSub listStartStr (docP nS pS eS lS gS) = false) := by
  refine ⟨?_, ?_, ?_, ?_⟩
  · intro data
    rcases build_aps_cases data with ⟨h1, h2, h3, h4⟩ | ⟨hor, hsh⟩
    · rw [h4]
      simp [h1, h2, h3]
    · constructor
      · intro hok
        rcases hsh with ⟨e, he⟩ | ⟨mid, hm⟩
        · rw [he] at hok
          simp at hok
        · rw [hm] at hok
          simp [listStartStr] at hok
      · rintro ⟨ha, hp, hc⟩
        rcases hor with h | h | h
        · rw [ha] at h; cases h
        · rw [hp] at h; cases h
        · rw [hc] at h; cases h
  · intro data s hok hne
    exact build_aps_nonempty_shape data s hok hne
  · intro fmt data k
    constructor
    · intro h
      simp [aps_source_items, h]
    · intro xs hget ht
      simp only [aps_source_items, ht, if_true, hget, Option.getD_some, asList, ok_bind]
  · intro nS pS eS lS gS h1 h2 h3 h4 h5
    exact ⟨render_plain_decomp nS pS eS lS gS h1 h2 h3 h4 h5,
      docP_no_markers nS pS eS lS gS h1 h2 h3 h4 h5⟩

/-- Witness for C7: the non-empty shape at a concrete input with one certification,
and the document-level omission at a concrete plain-field input. -/
theorem C7_witness :
    (∃ a p c, aps_source_items format_achievement_item
        [("certifications", .list [.str "AWS Cert".toList])] "achievements" = .ok a ∧
      aps_source_items format_publication_item
        [("certifications", .list [.str "AWS Cert".toList])] "publications" = .ok p ∧
      aps_source_items format_certification_item
        [("certifications", .list [.str "AWS Cert".toList])] "certifications" = .ok c ∧
      okStr (build_achievements_publications_section
        [("certifications", .list [.str "AWS Cert".toList])]) =
        listStartStr ++ (a ++ (p ++ c)) ++ listEndStr) ∧
    (render_template TEMPLATE (mkPlainData "Jane Doe".toList "555-0100".toList
        "j@x.com".toList "jane".toList "jane".toList) =
      .ok (docP "Jane Doe".toList "555-0100".toList "j@x.com".toList
        "jane".toList "jane".toList) ∧
     containsSub section_start (docP "Jane Doe".toList "555-0100".toList
        "j@x.com".toList "jane".toList "jane".toList) = false ∧
     containsSub section_end (docP "Jane Doe".toList "555-0100".toList
        "j@x.com".toList "jane".toList "jane".toList) = false ∧
     containsSub listStartStr (docP "Jane Doe".toList "555-0100".toList
        "j@x.com".toList "jane".toList "jane".toList) = false) :=
  ⟨C7_compound_section_amended.2.1 [("certifications", .list [.str "AWS Cert".toList])]
      (okStr (build_achievements_publications_section
        [("certifications", .list [.str "AWS Cert".toList])])) rfl (by decide),
   C7_compound_section_amended.2.2.2 "Jane Doe".toList "555-0100".toList
      "j@x.com".toList "jane".toList "jane".toList
      (by decide) (by decide) (by decide) (by decide) (by decide)⟩
